import Mathlib

/-! Groom region operators (`editgroom_region.c`).

A shallow embedding of the region/bundle data model of `DNA_groom_types.h` and of the
operators `region_add_exec`, `groom_bundle_extrude` and `groom_extrude_bundle_exec` of
`editors/groom/editgroom_region.c`.

Modelling conventions:

* C `int` fields are `Int`.  The plain model computes with exact integers, which is what
  the code computes as long as every count fits the 32-bit `int`; the `_checked` model
  treats signed overflow as undefined behaviour, and the index definitions used in the
  statements reduce modulo `2^32` as a two's complement machine does.
* A C `float` is a symbolic `CFloat`: a binary32 bit pattern or a recorded, unevaluated
  binary32 addition or multiplication.  Rounding, infinities and NaN are not interpreted;
  `CFloat.exact_value` reads such an expression in exact rational arithmetic.
* A heap array is a `List`; its length is the allocation size.  Indices are `Int` as in the
  source.  In the plain model a read outside the array yields the indeterminate value
  supplied by the caller and a write outside the array is dropped; the `_checked` model
  returns `none` for every undefined behaviour (access outside an array, negative
  allocation size, overlapping or negative `memcpy`, signed overflow).
* Memory returned by `MEM_reallocN_id` beyond the old contents is indeterminate: cell `i`
  holds `uninit i` for a caller-supplied `uninit`.
* Functions of the `BKE_groom_*` API, whose bodies are not part of the translated sources,
  are parameters collected in `GroomAPI`.
-/

namespace EditGroomRegion

/-! ## Data model (`DNA_groom_types.h`) -/

/-- Flag `GM_VERTEX_SELECT = (1 << 0)`. -/
def GM_VERTEX_SELECT : Int := 1

/-- Flag `GM_SECTION_SELECT = (1 << 0)`. -/
def GM_SECTION_SELECT : Int := 1

/-- Flag `GM_REGION_SELECT = (1 << 0)`. -/
def GM_REGION_SELECT : Int := 1

/-- Largest value of the 32-bit C `int`. -/
def INT_MAX : Int := 2147483647

/-- Smallest value of the 32-bit C `int`. -/
def INT_MIN : Int := -2147483648

/-- Result of a C `int` operation whose exact result is `x`: signed overflow is undefined
behaviour (`none`). -/
def int_checked (x : Int) : Option Int :=
  if INT_MIN ≤ x ∧ x ≤ INT_MAX then some x else none

/-- The `int` a two's complement machine stores for the exact result `x`: `x` reduced
modulo `2^32` into `[INT_MIN, INT_MAX]`. -/
def int_wrap (x : Int) : Int :=
  (x - INT_MIN) % 4294967296 + INT_MIN

/-- A C `float`, a binary32 value, kept symbolic: a value given by its bit pattern, or the
result of a binary32 addition or multiplication, which is recorded and not evaluated. -/
inductive CFloat where
  | ofBits (bits : Nat)
  | add (a b : CFloat)
  | mul (a b : CFloat)
deriving DecidableEq

/-- The constant `0.0f` (all bits zero, also the content of zeroed memory). -/
def CFloat.zero : CFloat := CFloat.ofBits 0

/-- The constant `1.0f`. -/
def CFloat.one : CFloat := CFloat.ofBits 0x3F800000

/-- The rational value of a binary32 bit pattern (sign bit 31, exponent bits 30..23,
fraction bits 22..0); `none` for the infinities and NaN. -/
def binary32_value (bits : Nat) : Option ℚ :=
  let sign : ℚ := if (bits / 2 ^ 31) % 2 = 1 then -1 else 1
  let e : Nat := (bits / 2 ^ 23) % 256
  let m : Nat := bits % 2 ^ 23
  if e = 255 then none
  else if e = 0 then some (sign * (m : ℚ) / 2 ^ 149)
  else some (sign * (2 ^ 23 + (m : ℚ)) * 2 ^ e / 2 ^ 150)

/-- The value of a float expression read in exact arithmetic: bit patterns by their
rational value, every recorded addition and multiplication without rounding. -/
def CFloat.exact_value : CFloat → Option ℚ
  | CFloat.ofBits bits => binary32_value bits
  | CFloat.add a b =>
    match a.exact_value, b.exact_value with
    | some x, some y => some (x + y)
    | _, _ => none
  | CFloat.mul a b =>
    match a.exact_value, b.exact_value with
    | some x, some y => some (x * y)
    | _, _ => none

/-- A C `float[3]`. -/
structure Vec3 where
  x : CFloat
  y : CFloat
  z : CFloat
deriving DecidableEq

/-- The three components of a `float[3]` read in exact arithmetic. -/
def Vec3.exact_value (v : Vec3) : Option (ℚ × ℚ × ℚ) :=
  match v.x.exact_value, v.y.exact_value, v.z.exact_value with
  | some x, some y, some z => some (x, y, z)
  | _, _, _ => none

/-- A C `float[3][3]`, stored by rows: `rot[0]`, `rot[1]`, `rot[2]`. -/
structure Mat3 where
  r0 : Vec3
  r1 : Vec3
  r2 : Vec3
deriving DecidableEq

/-- Struct `GroomSectionVertex`: vertex in a closed curve for a bundle section. -/
structure GroomSectionVertex where
  flag : Int
  co : CFloat × CFloat
deriving DecidableEq

/-- Struct `GroomSection`: cross-section of a bundle. -/
structure GroomSection where
  flag : Int
  pad : Int
  center : Vec3
  mat : Mat3
deriving DecidableEq

/-- Struct `GroomCurveCache`: single interpolated step along a groom curve. -/
structure GroomCurveCache where
  co : Vec3
deriving DecidableEq

/-- Modelled from the spec: the declaration of `MeshSample` (`DNA_meshdata_types.h`) is not
among the sources; a surface sample is kept as an uninterpreted token. -/
structure MeshSample where
  token : Nat
deriving DecidableEq

/-- Struct `GroomHairGuide`: data for generating hair guide curves. -/
structure GroomHairGuide where
  root : MeshSample
deriving DecidableEq

/-- Struct `GroomBundle`: bundle of hair strands following the same curve path. -/
structure GroomBundle where
  guides_count : Int
  totsections : Int
  totverts : Int
  curvesize : Int
  totcurvecache : Int
  totguides : Int
  sections : List GroomSection
  verts : List GroomSectionVertex
  curvecache : List GroomCurveCache
  guides : List GroomHairGuide
  guide_shape_weights : List CFloat
deriving DecidableEq

/-- Struct `GroomRegion`: region on the scalp that generates hair guide curves.  The list links
`next`/`prev` are the position of the region in its `List`. -/
structure GroomRegion where
  flag : Int
  numverts : Int
  scalp_samples : List MeshSample
  scalp_facemap_name : String
  bundle : GroomBundle
  taper_length : CFloat
  taper_thickness : CFloat
deriving DecidableEq

/-- Struct `EditGroom`: editable groom data. -/
structure EditGroom where
  regions : List GroomRegion
deriving DecidableEq

/-- Modelled from the spec: `bFaceMap` (`DNA_object_types.h`) is not among the sources; only
its `name` is used by the operators. -/
structure bFaceMap where
  name : String
deriving DecidableEq

/-- Modelled from the spec: `Object` (`DNA_object_types.h`) is not among the sources; only the
face-map list `fmaps` of the scalp object is used by the operators. -/
structure ScalpObject where
  fmaps : List bFaceMap
deriving DecidableEq

/-- Struct `Groom`: groom curves for creating hair styles (the fields the operators touch). -/
structure Groom where
  curve_res : Int
  regions : List GroomRegion
  active_region : Int
  scalp_object : Option ScalpObject
  material_index : Int
  editgroom : Option EditGroom
deriving DecidableEq

/-- Operator return values of `WM_types.h` used by the operators. -/
inductive OperatorStatus where
  | OPERATOR_CANCELLED
  | OPERATOR_FINISHED
deriving DecidableEq

/-! ## C array and memory primitives -/

/-- Read `a[i]`; outside the array the indeterminate value `junk` is returned. -/
def arr_get {α : Type} (a : List α) (junk : α) (i : Int) : α :=
  if 0 ≤ i then a.getD i.toNat junk else junk

/-- Write `a[i] = v`; a write outside the array is dropped. -/
def arr_set {α : Type} (a : List α) (i : Int) (v : α) : List α :=
  if 0 ≤ i then a.set i.toNat v else a

/-- Checked read of `a[i]`. -/
def arr_get? {α : Type} (a : List α) (i : Int) : Option α :=
  if 0 ≤ i then a[i.toNat]? else none

/-- Checked write `a[i] = v`. -/
def arr_set? {α : Type} (a : List α) (i : Int) (v : α) : Option (List α) :=
  if 0 ≤ i ∧ i.toNat < a.length then some (a.set i.toNat v) else none

/-- Call `MEM_reallocN_id(a, sizeof(elem) * n, ..)`: the block is resized to `n` elements, the
leading cells are kept and the cells beyond the old length are indeterminate. -/
def MEM_reallocN_id {α : Type} (uninit : Nat → α) (a : List α) (n : Int) : List α :=
  a.take n.toNat ++ (List.range' a.length (n.toNat - a.length)).map uninit

/-- Checked `MEM_reallocN_id`: a negative element count is not a valid size. -/
def MEM_reallocN_id? {α : Type} (uninit : Nat → α) (a : List α) (n : Int) : Option (List α) :=
  if 0 ≤ n then some (MEM_reallocN_id uninit a n) else none

/-- Call `MEM_callocN(sizeof(elem) * n, ..)`: a fresh block of `n` zeroed elements. -/
def MEM_callocN {α : Type} (zero : α) (n : Int) : List α :=
  List.replicate n.toNat zero

/-- Call `memcpy(&a[dst], &a[src], sizeof(elem) * n)` inside one array, element by element; the
source cells are read from the array as it was before the copy. -/
def memcpy_within {α : Type} (junk : α) (a : List α) (dst src : Int) : Nat → List α
  | 0 => a
  | k + 1 => arr_set (memcpy_within junk a dst src k) (dst + k) (arr_get a junk (src + k))

/-- Checked `memcpy` inside one array, element by element: every source cell and every
destination cell must exist. -/
def memcpy_within? {α : Type} (a : List α) (dst src : Int) : Nat → Option (List α)
  | 0 => some a
  | k + 1 =>
    match memcpy_within? a dst src k with
    | none => none
    | some b =>
      match arr_get? a (src + k) with
      | none => none
      | some v => arr_set? b (dst + k) v

/-! ## Vector helpers (`BLI_math`) -/

/-- Function `zero_v3`. -/
def zero_v3 : Vec3 := ⟨CFloat.zero, CFloat.zero, CFloat.zero⟩

/-- Function `unit_m3`. -/
def unit_m3 : Mat3 :=
  ⟨⟨CFloat.one, CFloat.zero, CFloat.zero⟩, ⟨CFloat.zero, CFloat.one, CFloat.zero⟩,
    ⟨CFloat.zero, CFloat.zero, CFloat.one⟩⟩

/-- Function `madd_v3_v3v3fl(r, a, b, f)`: `r[i] = a[i] + b[i] * f` in binary32, the
operations recorded componentwise. -/
def madd_v3_v3v3fl (a b : Vec3) (f : CFloat) : Vec3 :=
  ⟨CFloat.add a.x (CFloat.mul b.x f), CFloat.add a.y (CFloat.mul b.y f),
    CFloat.add a.z (CFloat.mul b.z f)⟩

/-- The all-zero `GroomSection` produced by `MEM_callocN`. -/
def GroomSection.zero : GroomSection :=
  ⟨0, 0, zero_v3, ⟨zero_v3, zero_v3, zero_v3⟩⟩

/-! ## External `BKE_groom_*` API -/

/-- The functions of `BKE_groom.h` called by the operators; their bodies are not part of the
translated sources, so they are parameters.  The dependency graph, the groom object and the
evaluated scalp mesh passed to them by the operators are fixed during one operator call
and are part of the closures.

* `calc_region_transform_on_scalp region (loc, rot)`: the values left in the out-parameters
  `r_loc`, `r_rot` of `BKE_groom_calc_region_transform_on_scalp`, given their prior
  contents.
* `region_reset_shape region`: the region after `BKE_groom_region_reset_shape`.
* `region_new groom`: the region created by `BKE_groom_region_add`.
* `set_region_scalp_facemap groom region name`: result and region after
  `BKE_groom_set_region_scalp_facemap`.
* `region_bind groom region force`: result and region after `BKE_groom_region_bind`.
* `uninit_section`, `uninit_vert`: indeterminate contents of freshly reallocated cells. -/
structure GroomAPI where
  calc_region_transform_on_scalp : GroomRegion → Vec3 × Mat3 → Vec3 × Mat3
  region_reset_shape : GroomRegion → GroomRegion
  region_new : Groom → GroomRegion
  set_region_scalp_facemap : Groom → GroomRegion → String → Bool × GroomRegion
  region_bind : Groom → GroomRegion → Bool → Bool × GroomRegion
  uninit_section : Nat → GroomSection
  uninit_vert : Nat → GroomSectionVertex

/-- Indeterminate section value returned by a read outside the sections array. -/
def GroomAPI.junk_section (api : GroomAPI) : GroomSection := api.uninit_section 0

/-- Indeterminate vertex value returned by a read outside the vertex array. -/
def GroomAPI.junk_vert (api : GroomAPI) : GroomSectionVertex := api.uninit_vert 0

/-- The live region list of a groom: the edit-staging list `groom->editgroom->regions` when
`groom->editgroom` is set, else the committed list `groom->regions` (the choice made by
`region_remove_exec`). -/
def live_regions (groom : Groom) : List GroomRegion :=
  match groom.editgroom with
  | some edit => edit.regions
  | none => groom.regions

/-- The groom with its live region list replaced. -/
def set_live_regions (groom : Groom) (regions : List GroomRegion) : Groom :=
  match groom.editgroom with
  | some edit => { groom with editgroom := some { edit with regions := regions } }
  | none => { groom with regions := regions }

/-- Modelled from the spec: `BKE_groom_region_add` is not among the sources.  Per the spec
(data model and region-add) it appends the new region to the live region list of the
groom, the edit-staging list while editing and the committed list otherwise. -/
def BKE_groom_region_add (api : GroomAPI) (groom : Groom) : Groom × GroomRegion :=
  (set_live_regions groom (live_regions groom ++ [api.region_new groom]),
    api.region_new groom)

/-- Modelled from the spec: `BLI_findlink` (`BLI_listbase.h`) is not among the sources; it
returns the element at position `number` of a list, or `NULL` when there is none. -/
def BLI_findlink {α : Type} (l : List α) (number : Int) : Option α :=
  if 0 ≤ number then l[number.toNat]? else none

/-! ## `GROOM_OT_region_add` -/

/-- Function `region_add_set_bundle_curve(region, loc, rot, length)`. -/
def region_add_set_bundle_curve (region : GroomRegion) (loc : Vec3) (rot : Mat3)
    (length : CFloat) : GroomRegion :=
  let totsections : Int := 2
  let sections := MEM_callocN GroomSection.zero totsections
  let s0 := arr_get sections GroomSection.zero 0
  let sections :=
    arr_set sections 0 { s0 with center := madd_v3_v3v3fl loc rot.r2 CFloat.zero }
  let s1 := arr_get sections GroomSection.zero 1
  let sections := arr_set sections 1 { s1 with center := madd_v3_v3v3fl loc rot.r2 length }
  { region with bundle := { region.bundle with totsections := totsections, sections := sections } }

/-- The local `scalp_loc`, `scalp_rot` of `region_add_exec` when `region_add_set_bundle_curve`
is reached, together with the region as left by the face-map and bind calls: initialised by
`zero_v3`/`unit_m3` and overwritten by `BKE_groom_calc_region_transform_on_scalp` only when
both `BKE_groom_set_region_scalp_facemap` and `BKE_groom_region_bind(.., true)` succeed. -/
def region_add_scalp_transform (api : GroomAPI) (groom : Groom) (region : GroomRegion)
    (scalp_facemap_name : String) : GroomRegion × Vec3 × Mat3 :=
  let scalp_loc := zero_v3
  let scalp_rot := unit_m3
  let (ok, region) := api.set_region_scalp_facemap groom region scalp_facemap_name
  if ok then
    let (bound, region) := api.region_bind groom region true
    if bound then
      (region, api.calc_region_transform_on_scalp region (scalp_loc, scalp_rot))
    else (region, scalp_loc, scalp_rot)
  else (region, scalp_loc, scalp_rot)

/-- Function `region_add_exec(C, op)`: `groom` is `ob->data`, `fmap_index` the value of the
operator property `scalp_facemap`.  The new region is the tail of the live region list;
the returned groom holds its final value there. -/
def region_add_exec (api : GroomAPI) (groom : Groom) (fmap_index : Int) :
    OperatorStatus × Groom :=
  match groom.scalp_object with
  | none => (OperatorStatus.OPERATOR_CANCELLED, groom)
  | some scalp_object =>
    match BLI_findlink scalp_object.fmaps fmap_index with
    | none => (OperatorStatus.OPERATOR_CANCELLED, groom)
    | some fmap =>
      let scalp_facemap_name := fmap.name
      let (groom1, region) := BKE_groom_region_add api groom
      let (region, scalp_loc, scalp_rot) :=
        region_add_scalp_transform api groom1 region scalp_facemap_name
      let region := region_add_set_bundle_curve region scalp_loc scalp_rot CFloat.one
      let region := api.region_reset_shape region
      (OperatorStatus.OPERATOR_FINISHED,
        set_live_regions groom1 ((live_regions groom1).dropLast ++ [region]))

/-! ## `GROOM_OT_extrude_bundle` -/

/-- The test `flag & mask` of a C condition. -/
def flag_test (flag mask : Int) : Bool := Int.land flag mask != 0

/-- The statement `section->flag &= ~GM_SECTION_SELECT`. -/
def clear_select (s : GroomSection) : GroomSection :=
  { s with flag := Int.land s.flag (Int.lnot GM_SECTION_SELECT) }

/-- The statement `section->flag |= GM_SECTION_SELECT`. -/
def set_select (s : GroomSection) : GroomSection :=
  { s with flag := Int.lor s.flag GM_SECTION_SELECT }

/-- The loop `for (i = 0; i < n; ++i, ++section) section->flag &= ~GM_SECTION_SELECT;`
run for `n` iterations. -/
def deselect_sections (junk : GroomSection) (sections : List GroomSection) :
    Nat → List GroomSection
  | 0 => sections
  | i + 1 =>
    let sections := deselect_sections junk sections i
    arr_set sections i (clear_select (arr_get sections junk i))

/-- The block "Select the last section" of `groom_bundle_extrude`. -/
def select_last_section (junk : GroomSection) (region : GroomRegion) : GroomRegion :=
  let bundle := region.bundle
  let sections := deselect_sections junk bundle.sections (bundle.totsections - 1).toNat
  let sections := arr_set sections (bundle.totsections - 1)
    (set_select (arr_get sections junk (bundle.totsections - 1)))
  { region with bundle := { bundle with sections := sections } }

/-- Function `groom_bundle_extrude(depsgraph, groom, region)`. -/
def groom_bundle_extrude (api : GroomAPI) (region : GroomRegion) : GroomRegion :=
  let numverts := region.numverts
  let totsections := region.bundle.totsections + 1
  let sections := MEM_reallocN_id api.uninit_section region.bundle.sections totsections
  let new_section := totsections - 1
  let region :=
    if totsections > 1 then
      /- Initialize by copying from the last section -/
      let prev_section := totsections - 2
      let sections := arr_set sections new_section (arr_get sections api.junk_section prev_section)
      let totverts := region.bundle.totverts + numverts
      let verts := MEM_reallocN_id api.uninit_vert region.bundle.verts totverts
      let new_verts := totverts - numverts
      let prev_verts := totverts - 2 * numverts
      let verts := memcpy_within api.junk_vert verts new_verts prev_verts numverts.toNat
      { region with bundle := { region.bundle with
          totsections := totsections, sections := sections,
          totverts := totverts, verts := verts } }
    else
      let region := { region with bundle := { region.bundle with
          totsections := totsections, sections := sections } }
      let s := arr_get sections api.junk_section new_section
      let (center, mat) := api.calc_region_transform_on_scalp region (s.center, s.mat)
      let region := { region with bundle := { region.bundle with
          sections := arr_set sections new_section { s with center := center, mat := mat } } }
      api.region_reset_shape region
  select_last_section api.junk_section region

/-- The loop of `groom_extrude_bundle_exec` over the linked list `edit->regions`. -/
def groom_extrude_bundle_regions (api : GroomAPI) : List GroomRegion → List GroomRegion
  | [] => []
  | region :: next =>
    (if flag_test region.flag GM_REGION_SELECT then groom_bundle_extrude api region
      else region) :: groom_extrude_bundle_regions api next

/-- Function `groom_extrude_bundle_exec(C, op)`: `groom` is `ob->data`; `none` is the dereference of
a `NULL` `groom->editgroom`. -/
def groom_extrude_bundle_exec (api : GroomAPI) (groom : Groom) :
    Option (OperatorStatus × Groom) :=
  match groom.editgroom with
  | none => none
  | some edit =>
    some (OperatorStatus.OPERATOR_FINISHED,
      { groom with editgroom := some { edit with
          regions := groom_extrude_bundle_regions api edit.regions } })

/-! ## Checked model of `groom_bundle_extrude`

The same statements with every array access checked against the current allocation and
every `int` operation checked against the 32-bit range: `none` stands for undefined
behaviour in C. -/

/-- Checked version of the deselection loop. -/
def deselect_sections? (sections : List GroomSection) : Nat → Option (List GroomSection)
  | 0 => some sections
  | i + 1 =>
    match deselect_sections? sections i with
    | none => none
    | some sections =>
      match arr_get? sections i with
      | none => none
      | some s => arr_set? sections i (clear_select s)

/-- Checked version of the block "Select the last section". -/
def select_last_section? (region : GroomRegion) : Option GroomRegion :=
  let bundle := region.bundle
  match int_checked (bundle.totsections - 1) with
  | none => none
  | some last_index =>
    match deselect_sections? bundle.sections last_index.toNat with
    | none => none
    | some sections =>
      match arr_get? sections last_index with
      | none => none
      | some last =>
        match arr_set? sections last_index (set_select last) with
        | none => none
        | some sections => some { region with bundle := { bundle with sections := sections } }

/-- Index of `new_section` in `groom_bundle_extrude` as a 32-bit `int`:
`bundle->totsections - 1` after the increment of `totsections`. -/
def new_section_index (region : GroomRegion) : Int :=
  int_wrap (int_wrap (region.bundle.totsections + 1) - 1)

/-- Index of `prev_section` in `groom_bundle_extrude` as a 32-bit `int`:
`bundle->totsections - 2` after the increment of `totsections`. -/
def prev_section_index (region : GroomRegion) : Int :=
  int_wrap (int_wrap (region.bundle.totsections + 1) - 2)

/-- Element count of the vertex array requested by the `MEM_reallocN_id` of the copy
branch: the 32-bit `int` stored by `bundle->totverts += numverts`. -/
def resized_totverts (region : GroomRegion) : Int :=
  int_wrap (region.bundle.totverts + region.numverts)

/-- Index of `new_verts` in `groom_bundle_extrude` as a 32-bit `int`:
`bundle->totverts - numverts` after `bundle->totverts += numverts`. -/
def new_verts_index (region : GroomRegion) : Int :=
  int_wrap (resized_totverts region - region.numverts)

/-- Index of `prev_verts` in `groom_bundle_extrude` as a 32-bit `int`:
`bundle->totverts - 2*numverts` after `bundle->totverts += numverts`. -/
def prev_verts_index (region : GroomRegion) : Int :=
  int_wrap (resized_totverts region - int_wrap (2 * region.numverts))

/-- Checked `memcpy` of `n` elements inside one array: the count must be non-negative and
the two blocks must not overlap. -/
def memcpy_checked {α : Type} (a : List α) (dst src n : Int) : Option (List α) :=
  if 0 ≤ n ∧ (src + n ≤ dst ∨ dst + n ≤ src) then memcpy_within? a dst src n.toNat else none

/-- Checked copy branch of `groom_bundle_extrude`: `sections` is the resized sections
array and `totsections` the incremented count. -/
def groom_bundle_extrude_copy_checked (api : GroomAPI) (region : GroomRegion)
    (totsections : Int) (sections : List GroomSection) : Option GroomRegion :=
  let numverts := region.numverts
  match int_checked (totsections - 1), int_checked (totsections - 2) with
  | some new_section, some prev_section =>
    match arr_get? sections prev_section with
    | none => none
    | some prev =>
      match arr_set? sections new_section prev with
      | none => none
      | some sections =>
        match int_checked (region.bundle.totverts + numverts) with
        | none => none
        | some totverts =>
          match MEM_reallocN_id? api.uninit_vert region.bundle.verts totverts with
          | none => none
          | some verts =>
            match int_checked (totverts - numverts), int_checked (2 * numverts) with
            | some new_verts, some twice =>
              match int_checked (totverts - twice) with
              | none => none
              | some prev_verts =>
                match memcpy_checked verts new_verts prev_verts numverts with
                | none => none
                | some verts =>
                  some { region with bundle := { region.bundle with
                    totsections := totsections, sections := sections,
                    totverts := totverts, verts := verts } }
            | _, _ => none
  | _, _ => none

/-- Checked first-section branch of `groom_bundle_extrude`: `sections` is the resized
sections array and `totsections` the incremented count. -/
def groom_bundle_extrude_first_checked (api : GroomAPI) (region : GroomRegion)
    (totsections : Int) (sections : List GroomSection) : Option GroomRegion :=
  let region := { region with bundle := { region.bundle with
      totsections := totsections, sections := sections } }
  match int_checked (totsections - 1) with
  | none => none
  | some new_section =>
    match arr_get? sections new_section with
    | none => none
    | some s =>
      let (center, mat) := api.calc_region_transform_on_scalp region (s.center, s.mat)
      match arr_set? sections new_section { s with center := center, mat := mat } with
      | none => none
      | some sections =>
        some (api.region_reset_shape
          { region with bundle := { region.bundle with sections := sections } })

/-- Checked version of `groom_bundle_extrude(depsgraph, groom, region)`. -/
def groom_bundle_extrude_checked (api : GroomAPI) (region : GroomRegion) :
    Option GroomRegion :=
  match int_checked (region.bundle.totsections + 1) with
  | none => none
  | some totsections =>
    match MEM_reallocN_id? api.uninit_section region.bundle.sections totsections with
    | none => none
    | some sections =>
      match
        (if totsections > 1 then
          groom_bundle_extrude_copy_checked api region totsections sections
        else groom_bundle_extrude_first_checked api region totsections sections) with
      | none => none
      | some region => select_last_section? region

/-! ## Predicates used in the statements -/

/-- The size invariant of a bundle: `totverts == totsections * numverts`. -/
def size_invariant (region : GroomRegion) : Prop :=
  region.bundle.totverts = region.bundle.totsections * region.numverts

instance (region : GroomRegion) : Decidable (size_invariant region) :=
  inferInstanceAs
    (Decidable (region.bundle.totverts = region.bundle.totsections * region.numverts))

/-- The arrays of the bundle are allocated with exactly the recorded counts:
`sections[totsections]` and `verts[totverts]`. -/
def arrays_allocated (region : GroomRegion) : Prop :=
  (region.bundle.sections.length : Int) = region.bundle.totsections ∧
  (region.bundle.verts.length : Int) = region.bundle.totverts

instance (region : GroomRegion) : Decidable (arrays_allocated region) :=
  inferInstanceAs
    (Decidable ((region.bundle.sections.length : Int) = region.bundle.totsections ∧
      (region.bundle.verts.length : Int) = region.bundle.totverts))

/-- Section `i` of the region has `GM_SECTION_SELECT` set (`false` outside the array). -/
def section_selected (region : GroomRegion) (i : Nat) : Bool :=
  match region.bundle.sections[i]? with
  | some s => flag_test s.flag GM_SECTION_SELECT
  | none => false

/-- The region handed to `BKE_groom_region_reset_shape` by `groom_bundle_extrude` when the
bundle had no section: one section cell, indeterminate but for the center and frame written
by `BKE_groom_calc_region_transform_on_scalp`. -/
def first_section_seeded (api : GroomAPI) (region : GroomRegion) : GroomRegion :=
  let s := api.uninit_section 0
  let region1 := { region with bundle := { region.bundle with
      totsections := 1, sections := [s] } }
  let cm := api.calc_region_transform_on_scalp region1 (s.center, s.mat)
  { region1 with bundle := { region1.bundle with
      sections := [{ s with center := cm.1, mat := cm.2 }] } }

/-- Repeated extrude: `groom_bundle_extrude` applied `k` times. -/
def groom_bundle_extrude_times (api : GroomAPI) : Nat → GroomRegion → GroomRegion
  | 0, region => region
  | k + 1, region => groom_bundle_extrude api (groom_bundle_extrude_times api k region)

/-! ## Concrete inputs -/

/-- An instance of the external API: the scalp transform is the point `(5, 6, 7)` with the
identity frame, the shape reset rebuilds `totsections * numverts` vertices at `(1, 0)`,
every face map can be set and bound (three shape vertices). -/
def example_api : GroomAPI where
  calc_region_transform_on_scalp := fun _ _ =>
    (⟨CFloat.ofBits 0x40A00000, CFloat.ofBits 0x40C00000, CFloat.ofBits 0x40E00000⟩, unit_m3)
  region_reset_shape := fun r => { r with bundle := { r.bundle with
    totverts := r.bundle.totsections * r.numverts,
    verts := List.replicate (r.bundle.totsections * r.numverts).toNat
      ⟨0, (CFloat.one, CFloat.zero)⟩ } }
  region_new := fun _ =>
    ⟨0, 0, [], "", ⟨0, 0, 0, 0, 0, 0, [], [], [], [], []⟩, CFloat.zero, CFloat.zero⟩
  set_region_scalp_facemap := fun _ r n => (true, { r with scalp_facemap_name := n })
  region_bind := fun _ r _ =>
    (true, { r with numverts := 3, scalp_samples := [⟨1⟩, ⟨2⟩, ⟨3⟩, ⟨4⟩] })
  uninit_section := fun i =>
    ⟨99, 99, ⟨CFloat.ofBits 0x42C60000, CFloat.ofBits 0x42C60000, CFloat.ofBits i⟩, unit_m3⟩
  uninit_vert := fun i => ⟨77, (CFloat.ofBits 0x429A0000, CFloat.ofBits i)⟩

/-- A section with flag `f` and center `(c, c, c)`, `c` given by its bit pattern. -/
def example_section (f : Int) (c : Nat) : GroomSection :=
  ⟨f, 0, ⟨CFloat.ofBits c, CFloat.ofBits c, CFloat.ofBits c⟩, unit_m3⟩

/-- A vertex with flag `f` and coordinates `(c, c)`, `c` given by its bit pattern. -/
def example_vertex (f : Int) (c : Nat) : GroomSectionVertex :=
  ⟨f, (CFloat.ofBits c, CFloat.ofBits c)⟩

/-- A selected region with two sections (centers `10.0f` and `20.0f`, both selected) of two
vertices each (coordinates `1.0f` to `4.0f`). -/
def example_region : GroomRegion :=
  ⟨1, 2, [], "cap",
    ⟨0, 2, 4, 0, 0, 0, [example_section 1 0x41200000, example_section 3 0x41A00000],
      [example_vertex 0 0x3F800000, example_vertex 1 0x40000000,
        example_vertex 0 0x40400000, example_vertex 1 0x40800000], [], [], []⟩,
    CFloat.zero, CFloat.zero⟩

/-- A region whose bundle has no section yet. -/
def example_region_empty : GroomRegion :=
  ⟨1, 2, [], "cap", ⟨0, 0, 0, 0, 0, 0, [], [], [], [], []⟩, CFloat.zero, CFloat.zero⟩

/-- A region violating the size invariant: one section, `numverts == 3`, `totverts == 2`. -/
def example_region_short : GroomRegion :=
  ⟨1, 3, [], "cap",
    ⟨0, 1, 2, 0, 0, 0, [example_section 1 0x41200000],
      [example_vertex 0 0x3F800000, example_vertex 1 0x40000000], [], [], []⟩,
    CFloat.zero, CFloat.zero⟩

/-- A region satisfying the size invariant with counts at the end of the `int` range: one
section, `numverts == totverts == INT_MAX` (the vertex array is not read before
`totverts += numverts`). -/
def example_region_big : GroomRegion :=
  ⟨1, 2147483647, [], "cap",
    ⟨0, 1, 2147483647, 0, 0, 0, [example_section 1 0x41200000],
      [example_vertex 0 0x3F800000, example_vertex 1 0x40000000], [], [], []⟩,
    CFloat.zero, CFloat.zero⟩

/-- A groom whose scalp object has the single face map `cap`, in edit mode with a selected
and a non-selected region. -/
def example_groom : Groom :=
  ⟨1, [], 0, some ⟨[⟨"cap"⟩]⟩, 0,
    some ⟨[example_region, { example_region_empty with flag := 2 }]⟩⟩

/-! ## Lemmas on the array primitives -/

theorem length_MEM_reallocN_id {α : Type} (u : Nat → α) (a : List α) (n : Int) :
    (MEM_reallocN_id u a n).length = n.toNat := by
  simp [MEM_reallocN_id]
  omega

theorem MEM_reallocN_id_grow {α : Type} (u : Nat → α) (a : List α) (n : Int) (m : Nat)
    (h : n = (a.length : Int) + m) :
    MEM_reallocN_id u a n = a ++ (List.range' a.length m).map u := by
  subst h
  have h1 : ((a.length : Int) + m).toNat = a.length + m := by omega
  simp [MEM_reallocN_id, h1]

theorem length_arr_set {α : Type} (a : List α) (i : Int) (v : α) :
    (arr_set a i v).length = a.length := by
  unfold arr_set
  split <;> simp

theorem getElem?_arr_set {α : Type} (a : List α) (i : Nat) (v : α) (j : Nat) :
    (arr_set a (i : Int) v)[j]? = if i = j then (if i < a.length then some v else none) else a[j]? := by
  simp [arr_set, List.getElem?_set]

theorem arr_get_ofNat {α : Type} (a : List α) (junk : α) (i : Nat) (h : i < a.length) :
    arr_get a junk (i : Int) = a[i] := by
  simp [arr_get, List.getD_eq_getElem?_getD, h]

theorem arr_get?_ofNat {α : Type} (a : List α) (i : Nat) :
    arr_get? a (i : Int) = a[i]? := by
  simp [arr_get?]

theorem arr_set?_ofNat {α : Type} (a : List α) (i : Nat) (v : α) (h : i < a.length) :
    arr_set? a (i : Int) v = some (arr_set a (i : Int) v) := by
  simp [arr_set?, arr_set, h]

theorem length_memcpy_within {α : Type} (junk : α) (a : List α) (dst src : Int) (k : Nat) :
    (memcpy_within junk a dst src k).length = a.length := by
  induction k with
  | zero => rfl
  | succ k ih => simp [memcpy_within, length_arr_set, ih]

theorem getElem?_memcpy_within {α : Type} (junk : α) (a : List α) (d : Nat) (src : Int)
    (k j : Nat) :
    (memcpy_within junk a (d : Int) src k)[j]? =
      if d ≤ j ∧ j < d + k ∧ j < a.length then some (arr_get a junk (src + ((j - d : Nat) : Int)))
      else a[j]? := by
  induction k with
  | zero =>
    have h3 : ¬ (d ≤ j ∧ j < d + 0 ∧ j < a.length) := by omega
    simp only [memcpy_within, h3, if_false]
  | succ k ih =>
    have hcast : ((d : Int) + (k : Int)) = ((d + k : Nat) : Int) := by push_cast; rfl
    rw [memcpy_within, hcast, getElem?_arr_set, ih, length_memcpy_within]
    by_cases h1 : d + k = j
    · subst h1
      by_cases h4 : d + k < a.length
      · simp [h4]
      · have h3 : ¬ (d ≤ d + k ∧ d + k < d + (k + 1) ∧ d + k < a.length) := by omega
        rw [if_pos rfl, if_neg h4, if_neg h3, List.getElem?_eq_none (by omega)]
    · simp only [h1, if_false]
      by_cases h2 : d ≤ j ∧ j < d + k ∧ j < a.length
      · have h3 : d ≤ j ∧ j < d + (k + 1) ∧ j < a.length := by omega
        simp [h2, h3]
      · have h3 : ¬ (d ≤ j ∧ j < d + (k + 1) ∧ j < a.length) := by omega
        simp [h2, h3]

theorem memcpy_within?_eq {α : Type} (junk : α) (a : List α) (d s : Nat) (k : Nat)
    (hs : s + k ≤ a.length) (hd : d + k ≤ a.length) :
    memcpy_within? a (d : Int) (s : Int) k = some (memcpy_within junk a (d : Int) (s : Int) k) := by
  induction k with
  | zero => rfl
  | succ k ih =>
    have hcs : ((s : Int) + (k : Int)) = ((s + k : Nat) : Int) := by push_cast; rfl
    have hcd : ((d : Int) + (k : Int)) = ((d + k : Nat) : Int) := by push_cast; rfl
    have hlt : s + k < a.length := by omega
    rw [memcpy_within?, ih (by omega) (by omega), memcpy_within]
    simp only [hcs, hcd, arr_get?_ofNat, List.getElem?_eq_getElem hlt]
    rw [arr_set?_ofNat _ _ _ (by rw [length_memcpy_within]; omega), arr_get_ofNat _ _ _ hlt]

theorem arr_get_getD {α : Type} (a : List α) (junk : α) (i : Nat) :
    arr_get a junk (i : Int) = a[i]?.getD junk := by
  simp [arr_get, List.getD_eq_getElem?_getD]

theorem length_deselect_sections (junk : GroomSection) (s : List GroomSection) (n : Nat) :
    (deselect_sections junk s n).length = s.length := by
  induction n with
  | zero => rfl
  | succ n ih => simp [deselect_sections, length_arr_set, ih]

theorem getElem?_deselect_sections (junk : GroomSection) (s : List GroomSection) (n j : Nat) :
    (deselect_sections junk s n)[j]? = if j < n then s[j]?.map clear_select else s[j]? := by
  induction n generalizing j with
  | zero => simp [deselect_sections]
  | succ n ih =>
    rw [deselect_sections, getElem?_arr_set, arr_get_getD, length_deselect_sections]
    by_cases h1 : n = j
    · subst h1
      rw [if_pos rfl, ih, if_neg (Nat.lt_irrefl n), if_pos (Nat.lt_succ_self n)]
      by_cases h2 : n < s.length
      · simp [h2]
      · rw [if_neg h2, List.getElem?_eq_none (by omega)]; rfl
    · rw [if_neg h1, ih]
      by_cases h3 : j < n
      · rw [if_pos h3, if_pos (by omega)]
      · rw [if_neg h3, if_neg (by omega)]

theorem deselect_sections?_eq (junk : GroomSection) (s : List GroomSection) (n : Nat)
    (h : n ≤ s.length) :
    deselect_sections? s n = some (deselect_sections junk s n) := by
  induction n with
  | zero => rfl
  | succ n ih =>
    have hlt : n < (deselect_sections junk s n).length := by
      rw [length_deselect_sections]; omega
    rw [deselect_sections?, ih (by omega), deselect_sections]
    simp only [arr_get?_ofNat, List.getElem?_eq_getElem hlt]
    rw [arr_set?_ofNat _ _ _ hlt, arr_get_ofNat _ _ _ hlt]

/-! ## Lemmas on the flag bits -/

theorem land_one (x : Int) : Int.land x 1 = if x.testBit 0 then 1 else 0 := by
  have h0 : ∀ m : Int, Int.land m 0 = 0 := by
    intro m
    cases m <;> simp [Int.land, Nat.ldiff, Nat.bitwise_zero_left]
  have h1 : (1 : Int) = Int.bit true 0 := by simp [Int.bit_val]
  conv_lhs => rw [← Int.bit_decomp x, h1, Int.land_bit, h0]
  conv_rhs => rw [← Int.bit_decomp x, Int.testBit_bit_zero]
  cases x.bodd <;> simp [Int.bit_val]

theorem flag_test_clear_select (s : GroomSection) :
    flag_test (clear_select s).flag GM_SECTION_SELECT = false := by
  have h1 : Int.testBit 1 0 = true := by decide
  simp [flag_test, clear_select, GM_SECTION_SELECT, land_one, Int.testBit_land,
    Int.testBit_lnot, h1]

theorem flag_test_set_select (s : GroomSection) :
    flag_test (set_select s).flag GM_SECTION_SELECT = true := by
  have h1 : Int.testBit 1 0 = true := by decide
  simp [flag_test, set_select, GM_SECTION_SELECT, land_one, Int.testBit_lor, h1]

/-! ## Closed forms on well-formed arrays -/

theorem arr_set_append_singleton {α : Type} (S : List α) (x v : α) (i : Int)
    (hi : i = (S.length : Int)) : arr_set (S ++ [x]) i v = S ++ [v] := by
  subst hi
  simp [arr_set]

theorem arr_get_append_left {α : Type} (S T : List α) (junk : α) (i : Nat) (h : i < S.length) :
    arr_get (S ++ T) junk (i : Int) = arr_get S junk (i : Int) := by
  rw [arr_get_getD, arr_get_getD, List.getElem?_append_left h]

theorem arr_get_append_singleton {α : Type} (S : List α) (x junk : α) (i : Int)
    (hi : i = (S.length : Int)) : arr_get (S ++ [x]) junk i = x := by
  subst hi
  rw [arr_get_getD]
  simp

theorem deselect_sections_append_singleton (junk : GroomSection) (S : List GroomSection)
    (x : GroomSection) :
    deselect_sections junk (S ++ [x]) S.length = S.map clear_select ++ [x] := by
  apply List.ext_getElem?
  intro j
  rw [getElem?_deselect_sections]
  by_cases h : j < S.length
  · rw [if_pos h, List.getElem?_append_left h,
      List.getElem?_append_left (by simpa using h), List.getElem?_map]
  · rw [if_neg h, List.getElem?_append_right (by omega),
      List.getElem?_append_right (by simp; omega)]
    simp

theorem memcpy_within_append {α : Type} (junk : α) (V T : List α) (nv : Nat)
    (hT : T.length = nv) (hle : nv ≤ V.length) (dst src : Int)
    (hdst : dst = (V.length : Int)) (hsrc : src = (V.length : Int) - nv) :
    memcpy_within junk (V ++ T) dst src nv = V ++ V.drop (V.length - nv) := by
  subst hdst
  have hs : src = ((V.length - nv : Nat) : Int) := by omega
  subst hs
  apply List.ext_getElem?
  intro j
  rw [getElem?_memcpy_within]
  by_cases h : j < V.length
  · rw [if_neg (by omega), List.getElem?_append_left h, List.getElem?_append_left h]
  · by_cases h2 : j < V.length + nv
    · rw [if_pos (by simp; omega), List.getElem?_append_right (by omega), List.getElem?_drop]
      have hc : ((V.length - nv : Nat) : Int) + ((j - V.length : Nat) : Int)
          = ((V.length - nv + (j - V.length) : Nat) : Int) := by push_cast; rfl
      have hlt : V.length - nv + (j - V.length) < V.length := by omega
      rw [hc, arr_get_append_left _ _ _ _ hlt, arr_get_ofNat _ _ _ hlt,
        List.getElem?_eq_getElem hlt]
    · rw [if_neg (by simp; omega), List.getElem?_eq_none (by simp; omega),
        List.getElem?_eq_none (by simp; omega)]

theorem numverts_bounds (region : GroomRegion) (hA : arrays_allocated region)
    (hI : size_invariant region) (hN : 1 ≤ region.bundle.totsections) :
    0 ≤ region.numverts ∧ region.numverts ≤ region.bundle.totverts := by
  obtain ⟨_, hV⟩ := hA
  unfold size_invariant at hI
  have h0 : (0 : Int) ≤ region.bundle.verts.length := Int.natCast_nonneg _
  constructor
  · by_contra hneg
    push_neg at hneg
    nlinarith
  · have : 0 ≤ region.numverts := by
      by_contra hneg
      push_neg at hneg
      nlinarith
    nlinarith

/-- Closed form of `groom_bundle_extrude` on a well-formed bundle with at least one section:
the last section is duplicated, the selection moves to the duplicate and the last vertex
block is appended once more. -/
theorem groom_bundle_extrude_copy (api : GroomAPI) (region : GroomRegion)
    (hA : arrays_allocated region) (hI : size_invariant region)
    (hN : 1 ≤ region.bundle.totsections) :
    groom_bundle_extrude api region =
      { region with bundle := { region.bundle with
          totsections := region.bundle.totsections + 1,
          totverts := region.bundle.totverts + region.numverts,
          sections := region.bundle.sections.map clear_select ++
            [set_select (arr_get region.bundle.sections api.junk_section
              (region.bundle.totsections - 1))],
          verts := region.bundle.verts ++
            region.bundle.verts.drop (region.bundle.totverts - region.numverts).toNat } } := by
  obtain ⟨hnv0, hnvle⟩ := numverts_bounds region hA hI hN
  obtain ⟨hS, hV⟩ := hA
  have hgt : region.bundle.totsections + 1 > 1 := by omega
  have e1 : MEM_reallocN_id api.uninit_section region.bundle.sections
      (region.bundle.totsections + 1)
      = region.bundle.sections ++ [api.uninit_section region.bundle.sections.length] := by
    rw [MEM_reallocN_id_grow _ _ _ 1 (by omega)]; rfl
  have e2 : MEM_reallocN_id api.uninit_vert region.bundle.verts
      (region.bundle.totverts + region.numverts)
      = region.bundle.verts ++
        (List.range' region.bundle.verts.length region.numverts.toNat).map api.uninit_vert :=
    MEM_reallocN_id_grow _ _ _ _ (by omega)
  have hm : ((region.bundle.sections.length - 1 : Nat) : Int)
      = region.bundle.totsections - 1 := by omega
  have e3 : arr_get (region.bundle.sections ++
      [api.uninit_section region.bundle.sections.length]) api.junk_section
      (region.bundle.totsections + 1 - 2)
      = arr_get region.bundle.sections api.junk_section (region.bundle.totsections - 1) := by
    have : region.bundle.totsections + 1 - 2
        = ((region.bundle.sections.length - 1 : Nat) : Int) := by omega
    rw [this, arr_get_append_left _ _ _ _ (by omega), hm]
  have e4 : (region.bundle.verts.length - region.numverts.toNat)
      = (region.bundle.totverts - region.numverts).toNat := by omega
  simp only [groom_bundle_extrude, if_pos hgt, e1, e2, e3, select_last_section]
  rw [arr_set_append_singleton _ _ _ _ (by omega)]
  have hd : (region.bundle.totsections + 1 - 1).toNat = region.bundle.sections.length := by
    omega
  rw [hd, deselect_sections_append_singleton,
    arr_get_append_singleton _ _ _ _ (by simp; omega),
    arr_set_append_singleton _ _ _ _ (by simp; omega),
    memcpy_within_append _ _ _ _ (by simp) (by omega) _ _ (by omega) (by omega), e4]

/-! ## Lemmas on the operators -/

/-- Sections of the result of `groom_bundle_extrude` when the sections array holds
`totsections >= 1` cells: no assumption on the vertex array. -/
theorem groom_bundle_extrude_copy_sections (api : GroomAPI) (region : GroomRegion)
    (hS : (region.bundle.sections.length : Int) = region.bundle.totsections)
    (hN : 1 ≤ region.bundle.totsections) :
    (groom_bundle_extrude api region).bundle.totsections = region.bundle.totsections + 1 ∧
    (groom_bundle_extrude api region).bundle.sections =
      region.bundle.sections.map clear_select ++
        [set_select (arr_get region.bundle.sections api.junk_section
          (region.bundle.totsections - 1))] := by
  have hgt : region.bundle.totsections + 1 > 1 := by omega
  have e1 : MEM_reallocN_id api.uninit_section region.bundle.sections
      (region.bundle.totsections + 1)
      = region.bundle.sections ++ [api.uninit_section region.bundle.sections.length] := by
    rw [MEM_reallocN_id_grow _ _ _ 1 (by omega)]; rfl
  have hm : ((region.bundle.sections.length - 1 : Nat) : Int)
      = region.bundle.totsections - 1 := by omega
  have e3 : arr_get (region.bundle.sections ++
      [api.uninit_section region.bundle.sections.length]) api.junk_section
      (region.bundle.totsections + 1 - 2)
      = arr_get region.bundle.sections api.junk_section (region.bundle.totsections - 1) := by
    have : region.bundle.totsections + 1 - 2
        = ((region.bundle.sections.length - 1 : Nat) : Int) := by omega
    rw [this, arr_get_append_left _ _ _ _ (by omega), hm]
  simp only [groom_bundle_extrude, if_pos hgt, e1, e3, select_last_section]
  rw [arr_set_append_singleton _ _ _ _ (by omega)]
  have hd : (region.bundle.totsections + 1 - 1).toNat = region.bundle.sections.length := by
    omega
  rw [hd, deselect_sections_append_singleton,
    arr_get_append_singleton _ _ _ _ (by simp; omega),
    arr_set_append_singleton _ _ _ _ (by simp; omega)]
  exact ⟨trivial, rfl⟩

/-- Selection after `groom_bundle_extrude` on a bundle whose sections array holds
`totsections >= 1` cells: among the `totsections + 1` sections only the new one, at index
`totsections`, is selected. -/
theorem groom_bundle_extrude_copy_selected (api : GroomAPI) (region : GroomRegion)
    (hS : (region.bundle.sections.length : Int) = region.bundle.totsections)
    (hN : 1 ≤ region.bundle.totsections) (i : Nat)
    (hi : (i : Int) < region.bundle.totsections + 1) :
    section_selected (groom_bundle_extrude api region) i = true ↔
      (i : Int) = region.bundle.totsections := by
  obtain ⟨_, hs⟩ := groom_bundle_extrude_copy_sections api region hS hN
  unfold section_selected
  rw [hs]
  by_cases hlt : i < region.bundle.sections.length
  · rw [List.getElem?_append_left (by simpa using hlt), List.getElem?_map,
      List.getElem?_eq_getElem hlt]
    simp only [Option.map_some', flag_test_clear_select]
    constructor
    · intro h; cases h
    · intro h; omega
  · have hi2 : i = (region.bundle.sections.map clear_select).length := by simp; omega
    rw [hi2, List.getElem?_concat_length]
    simp only [flag_test_set_select, List.length_map, true_iff]
    omega

/-- One `groom_bundle_extrude` on a well-formed bundle with at least one section leaves a
well-formed bundle with one section more. -/
theorem groom_bundle_extrude_copy_wf (api : GroomAPI) (region : GroomRegion)
    (hA : arrays_allocated region) (hI : size_invariant region)
    (hN : 1 ≤ region.bundle.totsections) :
    arrays_allocated (groom_bundle_extrude api region) ∧
    size_invariant (groom_bundle_extrude api region) ∧
    (groom_bundle_extrude api region).numverts = region.numverts ∧
    (groom_bundle_extrude api region).bundle.totsections
      = region.bundle.totsections + 1 := by
  have hc := groom_bundle_extrude_copy api region hA hI hN
  obtain ⟨hnv0, hnvle⟩ := numverts_bounds region hA hI hN
  obtain ⟨hS, hV⟩ := hA
  unfold size_invariant at hI
  rw [hc]
  refine ⟨⟨?_, ?_⟩, ?_, rfl, rfl⟩
  · simp only [List.length_append, List.length_map, List.length_singleton]
    omega
  · simp only [List.length_append, List.length_drop]
    omega
  · unfold size_invariant
    simp only []
    rw [hI]; ring

theorem select_last_section_single (junk : GroomSection) (region : GroomRegion)
    (x : GroomSection) (ht : region.bundle.totsections = 1)
    (hs : region.bundle.sections = [x]) :
    select_last_section junk region =
      { region with bundle := { region.bundle with sections := [set_select x] } } := by
  simp only [select_last_section, ht, hs]
  rfl

/-- Unfolding of `groom_bundle_extrude` on a bundle without sections: one cell is
allocated, its center and frame are filled by
`BKE_groom_calc_region_transform_on_scalp`, the shape is reset and the section selected. -/
theorem groom_bundle_extrude_first (api : GroomAPI) (region : GroomRegion)
    (h0 : region.bundle.totsections = 0) (hnil : region.bundle.sections = []) :
    groom_bundle_extrude api region =
      select_last_section api.junk_section
        (api.region_reset_shape (first_section_seeded api region)) := by
  have hgt : ¬ ((0 : Int) + 1 > 1) := by decide
  have e1 : MEM_reallocN_id api.uninit_section ([] : List GroomSection) (0 + 1)
      = [api.uninit_section 0] := rfl
  have e2 : ((0 : Int) + 1 - 1) = 0 := rfl
  have e3 : ∀ x : GroomSection, arr_get [x] api.junk_section 0 = x := fun _ => rfl
  have e4 : ∀ x y : GroomSection, arr_set [x] 0 y = [y] := fun _ _ => rfl
  simp only [groom_bundle_extrude, h0, hnil, if_neg hgt, e1, e2, e3, e4, first_section_seeded]
  rfl

/-- Prior cells after `groom_bundle_extrude` on a well-formed bundle with at least one
section: a prior section only has `GM_SECTION_SELECT` cleared, a prior vertex is
untouched. -/
theorem groom_bundle_extrude_copy_prior (api : GroomAPI) (region : GroomRegion)
    (hA : arrays_allocated region) (hI : size_invariant region)
    (hN : 1 ≤ region.bundle.totsections) :
    (∀ (i : Nat) (s : GroomSection), region.bundle.sections[i]? = some s →
      (groom_bundle_extrude api region).bundle.sections[i]? = some (clear_select s)) ∧
    (∀ (j : Nat) (v : GroomSectionVertex), region.bundle.verts[j]? = some v →
      (groom_bundle_extrude api region).bundle.verts[j]? = some v) := by
  rw [groom_bundle_extrude_copy api region hA hI hN]
  constructor
  · intro i s hs
    have hlt : i < region.bundle.sections.length := (List.getElem?_eq_some.mp hs).1
    simp only []
    rw [List.getElem?_append_left (by simpa using hlt), List.getElem?_map, hs]
    rfl
  · intro j v hv
    have hlt : j < region.bundle.verts.length := (List.getElem?_eq_some.mp hv).1
    simp only []
    rw [List.getElem?_append_left hlt, hv]

theorem arr_get_toNat {α : Type} (a : List α) (junk : α) (i : Int) (h0 : 0 ≤ i)
    (h : i.toNat < a.length) : arr_get a junk i = a[i.toNat] := by
  simp [arr_get, h0, List.getD_eq_getElem?_getD, h]

/-- Invariants of repeated extrusion from a well-formed bundle with at least one section. -/
theorem groom_bundle_extrude_times_wf (api : GroomAPI) (region : GroomRegion)
    (hA : arrays_allocated region) (hI : size_invariant region)
    (hN : 1 ≤ region.bundle.totsections) (k : Nat) :
    arrays_allocated (groom_bundle_extrude_times api k region) ∧
    size_invariant (groom_bundle_extrude_times api k region) ∧
    (groom_bundle_extrude_times api k region).numverts = region.numverts ∧
    (groom_bundle_extrude_times api k region).bundle.totsections
      = region.bundle.totsections + k ∧
    (∀ i : Nat, (i : Int) < region.bundle.totsections →
      ∃ s s', region.bundle.sections[i]? = some s ∧
        (groom_bundle_extrude_times api k region).bundle.sections[i]? = some s' ∧
        s'.center = s.center ∧ s'.mat = s.mat) ∧
    (∀ j : Nat, (j : Int) < region.bundle.totsections * region.numverts →
      ∃ v, region.bundle.verts[j]? = some v ∧
        (groom_bundle_extrude_times api k region).bundle.verts[j]? = some v) := by
  induction k with
  | zero =>
    refine ⟨hA, hI, rfl, by simp [groom_bundle_extrude_times], ?_, ?_⟩
    · intro i hi
      have hlt : i < region.bundle.sections.length := by have := hA.1; omega
      exact ⟨_, _, List.getElem?_eq_getElem hlt, List.getElem?_eq_getElem hlt, rfl, rfl⟩
    · intro j hj
      have hlt : j < region.bundle.verts.length := by
        have := hA.2; unfold size_invariant at hI; omega
      exact ⟨_, List.getElem?_eq_getElem hlt, List.getElem?_eq_getElem hlt⟩
  | succ k ih =>
    obtain ⟨hAk, hIk, hnvk, htk, hsk, hvk⟩ := ih
    have hNk : 1 ≤ (groom_bundle_extrude_times api k region).bundle.totsections := by omega
    obtain ⟨hA', hI', hnv', ht'⟩ := groom_bundle_extrude_copy_wf api _ hAk hIk hNk
    obtain ⟨hs2, hv2⟩ := groom_bundle_extrude_copy_prior api _ hAk hIk hNk
    refine ⟨hA', hI', by rw [← hnvk]; exact hnv', ?_, ?_, ?_⟩
    · show (groom_bundle_extrude api (groom_bundle_extrude_times api k region)).bundle.totsections
        = _
      rw [ht', htk]; push_cast; ring
    · intro i hi
      obtain ⟨s, s1, h1, h2, h3, h4⟩ := hsk i hi
      exact ⟨s, clear_select s1, h1, hs2 i s1 h2, h3, h4⟩
    · intro j hj
      obtain ⟨v, h1, h2⟩ := hvk j hj
      exact ⟨v, h1, hv2 j v h2⟩

theorem length_groom_extrude_bundle_regions (api : GroomAPI) (l : List GroomRegion) :
    (groom_extrude_bundle_regions api l).length = l.length := by
  induction l with
  | nil => rfl
  | cons r l ih => simp [groom_extrude_bundle_regions, ih]

theorem getElem?_groom_extrude_bundle_regions (api : GroomAPI) (l : List GroomRegion)
    (i : Nat) :
    (groom_extrude_bundle_regions api l)[i]? =
      l[i]?.map (fun r =>
        if flag_test r.flag GM_REGION_SELECT then groom_bundle_extrude api r else r) := by
  induction l generalizing i with
  | nil => rfl
  | cons r l ih =>
    cases i with
    | zero => simp [groom_extrude_bundle_regions]
    | succ i => simp [groom_extrude_bundle_regions, ih]

theorem memcpy_within?_neg_src {α : Type} (a : List α) (dst src : Int) (k : Nat)
    (h : src < 0) : memcpy_within? a dst src (k + 1) = none := by
  induction k with
  | zero =>
    have : arr_get? a src = none := by
      simp [arr_get?, h]
    simp [memcpy_within?, this]
  | succ k ih =>
    rw [memcpy_within?, ih]

theorem int_checked_of_range (x : Int) (h1 : INT_MIN ≤ x) (h2 : x ≤ INT_MAX) :
    int_checked x = some x := by
  simp [int_checked, h1, h2]

theorem int_checked_eq_some (x y : Int) (h : int_checked x = some y) :
    y = x ∧ INT_MIN ≤ x ∧ x ≤ INT_MAX := by
  unfold int_checked at h
  split at h
  · rename_i hr
    exact ⟨(Option.some.inj h).symm, hr.1, hr.2⟩
  · cases h

theorem int_wrap_of_range (x : Int) (h1 : INT_MIN ≤ x) (h2 : x ≤ INT_MAX) :
    int_wrap x = x := by
  unfold int_wrap
  unfold INT_MIN at h1 ⊢
  unfold INT_MAX at h2
  omega

theorem int_wrap_sub_wrap (x y : Int) : int_wrap (int_wrap x - y) = int_wrap (x - y) := by
  unfold int_wrap INT_MIN
  omega

theorem int_wrap_sub_wrap_right (x y : Int) :
    int_wrap (x - int_wrap y) = int_wrap (x - y) := by
  unfold int_wrap INT_MIN
  omega

theorem select_last_section?_eq (junk : GroomSection) (r : GroomRegion) (m : Nat)
    (ht : r.bundle.totsections = (m : Int) + 1) (hl : r.bundle.sections.length = m + 1)
    (hm : r.bundle.totsections ≤ INT_MAX) :
    select_last_section? r = some (select_last_section junk r) := by
  have e : r.bundle.totsections - 1 = (m : Int) := by omega
  have hc : int_checked (m : Int) = some (m : Int) := by
    apply int_checked_of_range
    · unfold INT_MIN; omega
    · unfold INT_MAX at hm ⊢; omega
  have hlt : m < (deselect_sections junk r.bundle.sections m).length := by
    rw [length_deselect_sections]; omega
  unfold select_last_section? select_last_section
  simp only [e, hc, Int.toNat_ofNat]
  rw [deselect_sections?_eq junk _ m (by omega)]
  simp only []
  rw [arr_get?_ofNat, List.getElem?_eq_getElem hlt]
  simp only []
  rw [arr_set?_ofNat _ _ _ hlt, arr_get_ofNat _ _ _ hlt]

/-- Agreement of the checked and the plain model of the copy branch: with `N >= 1`
sections, `numverts >= 0`, `totverts == N * numverts` and new counts that fit the `int`
type, no operation of `groom_bundle_extrude` overflows and every access is inside its
array. -/
theorem groom_bundle_extrude_checked_copy (api : GroomAPI) (region : GroomRegion)
    (hN : 1 ≤ region.bundle.totsections) (hV : 0 ≤ region.numverts)
    (hI : size_invariant region)
    (hR1 : region.bundle.totsections + 1 ≤ INT_MAX)
    (hR2 : region.bundle.totverts + region.numverts ≤ INT_MAX) :
    groom_bundle_extrude_checked api region = some (groom_bundle_extrude api region) := by
  unfold size_invariant at hI
  have hR1' : region.bundle.totsections + 1 ≤ 2147483647 := hR1
  have hR2' : region.bundle.totverts + region.numverts ≤ 2147483647 := hR2
  have hgt : region.bundle.totsections + 1 > 1 := by omega
  have hT : 0 ≤ region.bundle.totverts := by rw [hI]; positivity
  have hnvle : region.numverts ≤ region.bundle.totverts := by rw [hI]; nlinarith
  have c1 : int_checked (region.bundle.totsections + 1)
      = some (region.bundle.totsections + 1) :=
    int_checked_of_range _ (by unfold INT_MIN; omega) hR1
  have c2 : int_checked (region.bundle.totsections + 1 - 1)
      = some (region.bundle.totsections + 1 - 1) :=
    int_checked_of_range _ (by unfold INT_MIN; omega) (by unfold INT_MAX; omega)
  have c3 : int_checked (region.bundle.totsections + 1 - 2)
      = some (region.bundle.totsections + 1 - 2) :=
    int_checked_of_range _ (by unfold INT_MIN; omega) (by unfold INT_MAX; omega)
  have c4 : int_checked (region.bundle.totverts + region.numverts)
      = some (region.bundle.totverts + region.numverts) :=
    int_checked_of_range _ (by unfold INT_MIN; omega) hR2
  have c5 : int_checked (region.bundle.totverts + region.numverts - region.numverts)
      = some (region.bundle.totverts + region.numverts - region.numverts) :=
    int_checked_of_range _ (by unfold INT_MIN; omega) (by unfold INT_MAX; omega)
  have c6 : int_checked (2 * region.numverts) = some (2 * region.numverts) :=
    int_checked_of_range _ (by unfold INT_MIN; omega) (by unfold INT_MAX; omega)
  have c7 : int_checked (region.bundle.totverts + region.numverts - 2 * region.numverts)
      = some (region.bundle.totverts + region.numverts - 2 * region.numverts) :=
    int_checked_of_range _ (by unfold INT_MIN; omega) (by unfold INT_MAX; omega)
  have hlenS : (MEM_reallocN_id api.uninit_section region.bundle.sections
      (region.bundle.totsections + 1)).length = (region.bundle.totsections + 1).toNat :=
    length_MEM_reallocN_id _ _ _
  have hlenV : (MEM_reallocN_id api.uninit_vert region.bundle.verts
      (region.bundle.totverts + region.numverts)).length
      = (region.bundle.totverts + region.numverts).toNat :=
    length_MEM_reallocN_id _ _ _
  have ip : region.bundle.totsections + 1 - 2
      = (((region.bundle.totsections - 1).toNat : Nat) : Int) := by omega
  have inw : region.bundle.totsections + 1 - 1
      = ((region.bundle.totsections.toNat : Nat) : Int) := by omega
  have iv : region.bundle.totverts + region.numverts - region.numverts
      = ((region.bundle.totverts.toNat : Nat) : Int) := by omega
  have ipv : region.bundle.totverts + region.numverts - 2 * region.numverts
      = (((region.bundle.totverts - region.numverts).toNat : Nat) : Int) := by omega
  have hplt : (region.bundle.totsections - 1).toNat
      < (MEM_reallocN_id api.uninit_section region.bundle.sections
        (region.bundle.totsections + 1)).length := by rw [hlenS]; omega
  have hnlt : region.bundle.totsections.toNat
      < (MEM_reallocN_id api.uninit_section region.bundle.sections
        (region.bundle.totsections + 1)).length := by rw [hlenS]; omega
  have hmem := memcpy_within?_eq api.junk_vert
    (MEM_reallocN_id api.uninit_vert region.bundle.verts
      (region.bundle.totverts + region.numverts))
    region.bundle.totverts.toNat (region.bundle.totverts - region.numverts).toNat
    region.numverts.toNat (by rw [hlenV]; omega) (by rw [hlenV]; omega)
  have hck : memcpy_checked
      (MEM_reallocN_id api.uninit_vert region.bundle.verts
        (region.bundle.totverts + region.numverts))
      (region.bundle.totverts + region.numverts - region.numverts)
      (region.bundle.totverts + region.numverts - 2 * region.numverts) region.numverts
      = some (memcpy_within api.junk_vert
        (MEM_reallocN_id api.uninit_vert region.bundle.verts
          (region.bundle.totverts + region.numverts))
        (region.bundle.totverts + region.numverts - region.numverts)
        (region.bundle.totverts + region.numverts - 2 * region.numverts)
        region.numverts.toNat) := by
    unfold memcpy_checked
    rw [if_pos ⟨hV, Or.inl (by omega)⟩, iv, ipv]
    exact hmem
  have hget : arr_get? (MEM_reallocN_id api.uninit_section region.bundle.sections
      (region.bundle.totsections + 1)) (region.bundle.totsections + 1 - 2)
      = some (arr_get (MEM_reallocN_id api.uninit_section region.bundle.sections
        (region.bundle.totsections + 1)) api.junk_section
        (region.bundle.totsections + 1 - 2)) := by
    rw [ip, arr_get?_ofNat, List.getElem?_eq_getElem hplt, arr_get_ofNat _ _ _ hplt]
  have hset : ∀ v, arr_set? (MEM_reallocN_id api.uninit_section region.bundle.sections
      (region.bundle.totsections + 1)) (region.bundle.totsections + 1 - 1) v
      = some (arr_set (MEM_reallocN_id api.uninit_section region.bundle.sections
        (region.bundle.totsections + 1)) (region.bundle.totsections + 1 - 1) v) := by
    intro v
    rw [inw, arr_set?_ofNat _ _ _ hnlt]
  have hcopy : groom_bundle_extrude_copy_checked api region (region.bundle.totsections + 1)
      (MEM_reallocN_id api.uninit_section region.bundle.sections
        (region.bundle.totsections + 1))
      = some { region with bundle := { region.bundle with
          totsections := region.bundle.totsections + 1,
          sections := arr_set (MEM_reallocN_id api.uninit_section region.bundle.sections
              (region.bundle.totsections + 1)) (region.bundle.totsections + 1 - 1)
            (arr_get (MEM_reallocN_id api.uninit_section region.bundle.sections
              (region.bundle.totsections + 1)) api.junk_section
              (region.bundle.totsections + 1 - 2)),
          totverts := region.bundle.totverts + region.numverts,
          verts := memcpy_within api.junk_vert
            (MEM_reallocN_id api.uninit_vert region.bundle.verts
              (region.bundle.totverts + region.numverts))
            (region.bundle.totverts + region.numverts - region.numverts)
            (region.bundle.totverts + region.numverts - 2 * region.numverts)
            region.numverts.toNat } } := by
    unfold groom_bundle_extrude_copy_checked
    simp only [c2, c3, hget, hset, c4, MEM_reallocN_id?,
      if_pos (show (0 : Int) ≤ region.bundle.totverts + region.numverts by omega),
      c5, c6, c7, hck]
  unfold groom_bundle_extrude_checked groom_bundle_extrude
  simp only [c1, MEM_reallocN_id?,
    if_pos (show (0 : Int) ≤ region.bundle.totsections + 1 by omega), if_pos hgt, hcopy]
  apply select_last_section?_eq _ _ (region.bundle.totsections.toNat)
  · simp only []; omega
  · simp only [length_arr_set, hlenS]; omega
  · exact hR1

theorem memcpy_checked_neg_src {α : Type} (a : List α) (dst src n : Int)
    (h : src < 0) (hn : 1 ≤ n) : memcpy_checked a dst src n = none := by
  unfold memcpy_checked
  split
  · obtain ⟨k, hk⟩ : ∃ k, n.toNat = k + 1 := ⟨n.toNat - 1, by omega⟩
    rw [hk, memcpy_within?_neg_src _ _ _ _ h]
  · rfl

/-- Agreement of the checked and the plain model of the first-section branch: on a bundle
with `totsections == 0` no operation overflows and every access is inside its array,
provided the shape reset keeps the sections array and its count. -/
theorem groom_bundle_extrude_checked_first (api : GroomAPI) (region : GroomRegion)
    (hreset : ∀ r, (api.region_reset_shape r).bundle.totsections = r.bundle.totsections ∧
      (api.region_reset_shape r).bundle.sections.length = r.bundle.sections.length)
    (h0 : region.bundle.totsections = 0) :
    groom_bundle_extrude_checked api region = some (groom_bundle_extrude api region) := by
  have c1 : int_checked ((0 : Int) + 1) = some 1 := by decide
  have c2 : int_checked ((1 : Int) - 1) = some 0 := by decide
  have hgt : ¬ ((1 : Int) > 1) := by decide
  have hgt' : ¬ ((0 : Int) + 1 > 1) := by decide
  have hlen : (MEM_reallocN_id api.uninit_section region.bundle.sections 1).length = 1 :=
    length_MEM_reallocN_id _ _ _
  have hlt : 0 < (MEM_reallocN_id api.uninit_section region.bundle.sections 1).length := by
    rw [hlen]; exact Nat.one_pos
  have hget : arr_get? (MEM_reallocN_id api.uninit_section region.bundle.sections 1) 0
      = some (arr_get (MEM_reallocN_id api.uninit_section region.bundle.sections 1)
        api.junk_section 0) := by
    have := arr_get?_ofNat (MEM_reallocN_id api.uninit_section region.bundle.sections 1) 0
    have h2 := arr_get_ofNat (MEM_reallocN_id api.uninit_section region.bundle.sections 1)
      api.junk_section 0 hlt
    simp only [Nat.cast_zero] at this h2
    rw [this, List.getElem?_eq_getElem hlt, h2]
  have hset : ∀ v, arr_set? (MEM_reallocN_id api.uninit_section region.bundle.sections 1) 0 v
      = some (arr_set (MEM_reallocN_id api.uninit_section region.bundle.sections 1) 0 v) := by
    intro v
    have := arr_set?_ofNat (MEM_reallocN_id api.uninit_section region.bundle.sections 1) 0 v
      hlt
    simpa using this
  have e1 : region.bundle.totsections + 1 = 1 := by omega
  have c1' : int_checked 1 = some 1 := by decide
  have c2' : int_checked 0 = some 0 := by decide
  have e2 : (1 : Int) - 1 = 0 := rfl
  have hfirst : groom_bundle_extrude_first_checked api region 1
      (MEM_reallocN_id api.uninit_section region.bundle.sections 1)
      = some (api.region_reset_shape
          { region with bundle := { region.bundle with
              totsections := 1,
              sections := arr_set (MEM_reallocN_id api.uninit_section region.bundle.sections 1) 0
                { arr_get (MEM_reallocN_id api.uninit_section region.bundle.sections 1)
                    api.junk_section 0 with
                  center := (api.calc_region_transform_on_scalp
                    { region with bundle := { region.bundle with
                        totsections := 1,
                        sections := MEM_reallocN_id api.uninit_section
                          region.bundle.sections 1 } }
                    ((arr_get (MEM_reallocN_id api.uninit_section region.bundle.sections 1)
                        api.junk_section 0).center,
                      (arr_get (MEM_reallocN_id api.uninit_section region.bundle.sections 1)
                        api.junk_section 0).mat)).1,
                  mat := (api.calc_region_transform_on_scalp
                    { region with bundle := { region.bundle with
                        totsections := 1,
                        sections := MEM_reallocN_id api.uninit_section
                          region.bundle.sections 1 } }
                    ((arr_get (MEM_reallocN_id api.uninit_section region.bundle.sections 1)
                        api.junk_section 0).center,
                      (arr_get (MEM_reallocN_id api.uninit_section region.bundle.sections 1)
                        api.junk_section 0).mat)).2 } } }) := by
    unfold groom_bundle_extrude_first_checked
    simp only [e2, c2', hget, hset]
  unfold groom_bundle_extrude_checked groom_bundle_extrude
  simp only [e1, c1', MEM_reallocN_id?, if_pos (show (0 : Int) ≤ 1 by decide), if_neg hgt,
    hfirst, e2]
  apply select_last_section?_eq _ _ 0
  · rw [(hreset _).1]; rfl
  · rw [(hreset _).2]
    simp only [length_arr_set, hlen]
  · rw [(hreset _).1]
    exact (by decide : (1 : Int) ≤ INT_MAX)

/-- Without the size precondition the copy branch leaves its arrays: when
`totverts < numverts` the checked model reports undefined behaviour. -/
theorem groom_bundle_extrude_checked_short (api : GroomAPI) (region : GroomRegion)
    (hN : 1 ≤ region.bundle.totsections)
    (hlt : region.bundle.totverts < region.numverts) :
    groom_bundle_extrude_checked api region = none := by
  have hcopy : ∀ t sections, groom_bundle_extrude_copy_checked api region t sections
      = none := by
    intro t sections
    unfold groom_bundle_extrude_copy_checked
    simp only []
    split
    · split
      · rfl
      · split
        · rfl
        · split
          · rfl
          · rename_i totverts htot
            obtain ⟨htv, _, _⟩ := int_checked_eq_some _ _ htot
            subst htv
            split
            · rfl
            · rename_i verts hverts
              have h0 : 0 ≤ region.bundle.totverts + region.numverts := by
                by_contra hneg
                simp [MEM_reallocN_id?, hneg] at hverts
              split
              · rename_i new_verts twice hnew htwice
                obtain ⟨hnv, _, _⟩ := int_checked_eq_some _ _ hnew
                obtain ⟨htw, _, _⟩ := int_checked_eq_some _ _ htwice
                subst hnv htw
                split
                · rfl
                · rename_i prev_verts hprev
                  obtain ⟨hpv, _, _⟩ := int_checked_eq_some _ _ hprev
                  subst hpv
                  rw [memcpy_checked_neg_src _ _ _ _ (by omega) (by omega)]
              · rfl
    · rfl
  unfold groom_bundle_extrude_checked
  split
  · rfl
  · rename_i t ht
    obtain ⟨htt, _, _⟩ := int_checked_eq_some _ _ ht
    subst htt
    split
    · rfl
    · rw [if_pos (show region.bundle.totsections + 1 > 1 by omega), hcopy]

/-- The live list after storing a list is that list. -/
theorem live_regions_set_live_regions (groom : Groom) (l : List GroomRegion) :
    live_regions (set_live_regions groom l) = l := by
  unfold live_regions set_live_regions
  cases groom.editgroom <;> rfl

/-- Storing the live list twice keeps the second list. -/
theorem set_live_regions_set_live_regions (groom : Groom) (l l' : List GroomRegion) :
    set_live_regions (set_live_regions groom l) l' = set_live_regions groom l' := by
  unfold set_live_regions
  cases groom.editgroom <;> rfl

theorem region_add_set_bundle_curve_sections (region : GroomRegion) (loc : Vec3) (rot : Mat3)
    (length : CFloat) :
    (region_add_set_bundle_curve region loc rot length).bundle.sections =
      [{ GroomSection.zero with center := madd_v3_v3v3fl loc rot.r2 CFloat.zero },
       { GroomSection.zero with center := madd_v3_v3v3fl loc rot.r2 length }] := rfl

theorem region_add_exec_found (api : GroomAPI) (groom : Groom) (fmap_index : Int)
    (scalp : ScalpObject) (fmap : bFaceMap) (hscalp : groom.scalp_object = some scalp)
    (hfmap : BLI_findlink scalp.fmaps fmap_index = some fmap) :
    region_add_exec api groom fmap_index =
      (OperatorStatus.OPERATOR_FINISHED,
        set_live_regions groom (live_regions groom ++
          [api.region_reset_shape (region_add_set_bundle_curve
            (region_add_scalp_transform api (BKE_groom_region_add api groom).1
              (BKE_groom_region_add api groom).2 fmap.name).1
            (region_add_scalp_transform api (BKE_groom_region_add api groom).1
              (BKE_groom_region_add api groom).2 fmap.name).2.1
            (region_add_scalp_transform api (BKE_groom_region_add api groom).1
              (BKE_groom_region_add api groom).2 fmap.name).2.2 CFloat.one)])) := by
  have hs : groom.scalp_object = some scalp := hscalp
  simp only [region_add_exec, hs, hfmap, BKE_groom_region_add,
    live_regions_set_live_regions, set_live_regions_set_live_regions,
    List.dropLast_concat]

/-! ## The claims -/

/-- C1 (as stated) fails: at `N = 1`, `numverts = totverts = INT_MAX` the size invariant
holds before the call with `totsections >= 0` and `numverts >= 0`, but
`bundle->totverts += numverts` leaves the `int` range: a two's complement machine stores
`-2`, which is not `(N + 1) * numverts`, and the call has no defined result satisfying the
invariant. -/
theorem groom_bundle_extrude_size_invariant_counterexample :
    size_invariant example_region_big ∧
    0 ≤ example_region_big.bundle.totsections ∧ 0 ≤ example_region_big.numverts ∧
    resized_totverts example_region_big = -2 ∧
    ¬ (resized_totverts example_region_big
        = (example_region_big.bundle.totsections + 1) * example_region_big.numverts) ∧
    ¬ ∃ r, groom_bundle_extrude_checked example_api example_region_big = some r ∧
        size_invariant r := by
  have h : groom_bundle_extrude_checked example_api example_region_big = none := by decide
  refine ⟨by decide, by decide, by decide, by decide, by decide, ?_⟩
  rintro ⟨r, hr, _⟩
  rw [h] at hr
  cases hr

/-- C1 (amended): `groom_bundle_extrude` preserves the bundle size invariant when the new
counts fit the C `int`: for every region with `totverts == totsections * numverts`,
`totsections >= 0`, `numverts >= 0`, `totsections + 1 <= INT_MAX` and
`totverts + numverts <= INT_MAX`, the invariant holds after the call, assuming of the
external `BKE_groom_region_reset_shape` only that it leaves
`totverts == totsections * numverts`.  Under these bounds the 32-bit counts are the exact
ones and the call has no undefined behaviour: with at least one section always, without a
section provided the shape reset keeps the sections array and its count. -/
theorem groom_bundle_extrude_size_invariant (api : GroomAPI) (region : GroomRegion)
    (hreset : ∀ r, size_invariant (api.region_reset_shape r))
    (hI : size_invariant region)
    (hN : 0 ≤ region.bundle.totsections) (hV : 0 ≤ region.numverts)
    (hR1 : region.bundle.totsections + 1 ≤ INT_MAX)
    (hR2 : region.bundle.totverts + region.numverts ≤ INT_MAX) :
    size_invariant (groom_bundle_extrude api region) ∧
    int_wrap (region.bundle.totsections + 1) = region.bundle.totsections + 1 ∧
    resized_totverts region = region.bundle.totverts + region.numverts ∧
    (1 ≤ region.bundle.totsections →
      groom_bundle_extrude_checked api region = some (groom_bundle_extrude api region)) ∧
    ((∀ r, (api.region_reset_shape r).bundle.totsections = r.bundle.totsections ∧
        (api.region_reset_shape r).bundle.sections.length = r.bundle.sections.length) →
      groom_bundle_extrude_checked api region = some (groom_bundle_extrude api region)) := by
  have hT : 0 ≤ region.bundle.totverts := by
    have hI' := hI
    unfold size_invariant at hI'
    rw [hI']; positivity
  refine ⟨?_, ?_, ?_, ?_, ?_⟩
  · unfold size_invariant at hI ⊢
    by_cases hgt : region.bundle.totsections + 1 > 1
    · simp only [groom_bundle_extrude, if_pos hgt, select_last_section]
      rw [hI]; ring
    · simp only [groom_bundle_extrude, if_neg hgt, select_last_section]
      exact hreset _
  · exact int_wrap_of_range _ (by unfold INT_MIN; omega) hR1
  · exact int_wrap_of_range _ (by unfold INT_MIN; omega) hR2
  · intro h1
    exact groom_bundle_extrude_checked_copy api region h1 hV hI hR1 hR2
  · intro hframe
    by_cases h1 : 1 ≤ region.bundle.totsections
    · exact groom_bundle_extrude_checked_copy api region h1 hV hI hR1 hR2
    · exact groom_bundle_extrude_checked_first api region hframe (by omega)

/-- C1, instance of `groom_bundle_extrude_size_invariant` on the concrete inputs: a bundle
with two sections, which takes the copy branch. -/
theorem groom_bundle_extrude_size_invariant_witness :
    (∀ r, size_invariant (example_api.region_reset_shape r)) ∧
    size_invariant example_region ∧
    example_region.bundle.totsections = 2 ∧
    size_invariant (groom_bundle_extrude example_api example_region) ∧
    groom_bundle_extrude_checked example_api example_region
      = some (groom_bundle_extrude example_api example_region) :=
  ⟨fun _ => rfl, by decide, rfl,
    (groom_bundle_extrude_size_invariant example_api example_region (fun _ => rfl)
      (by decide) (by decide) (by decide) (by decide) (by decide)).1,
    (groom_bundle_extrude_size_invariant example_api example_region (fun _ => rfl)
      (by decide) (by decide) (by decide) (by decide) (by decide)).2.2.2.1 (by decide)⟩

theorem CFloat.exact_value_zero : CFloat.zero.exact_value = some 0 := by
  norm_num [CFloat.zero, CFloat.exact_value, binary32_value]

theorem CFloat.exact_value_one : CFloat.one.exact_value = some 1 := by
  norm_num [CFloat.one, CFloat.exact_value, binary32_value]

theorem Vec3.exact_value_eq_some (v : Vec3) (a b c : ℚ) :
    v.exact_value = some (a, b, c) ↔
      v.x.exact_value = some a ∧ v.y.exact_value = some b ∧ v.z.exact_value = some c := by
  unfold Vec3.exact_value
  cases v.x.exact_value <;> cases v.y.exact_value <;> cases v.z.exact_value <;> simp

/-- Exact-arithmetic reading of `madd_v3_v3v3fl`: `a + b * f` componentwise. -/
theorem madd_v3_v3v3fl_exact_value (a b : Vec3) (f : CFloat) (va vb : ℚ × ℚ × ℚ) (vf : ℚ)
    (ha : a.exact_value = some va) (hb : b.exact_value = some vb)
    (hf : f.exact_value = some vf) :
    (madd_v3_v3v3fl a b f).exact_value
      = some (va.1 + vf * vb.1, va.2.1 + vf * vb.2.1, va.2.2 + vf * vb.2.2) := by
  obtain ⟨a1, a2, a3⟩ := va
  obtain ⟨b1, b2, b3⟩ := vb
  rw [Vec3.exact_value_eq_some] at ha hb ⊢
  obtain ⟨ha1, ha2, ha3⟩ := ha
  obtain ⟨hb1, hb2, hb3⟩ := hb
  simp only [madd_v3_v3v3fl, CFloat.exact_value, ha1, ha2, ha3, hb1, hb2, hb3, hf]
  exact ⟨by rw [mul_comm], by rw [mul_comm], by rw [mul_comm]⟩

theorem zero_v3_exact_value : zero_v3.exact_value = some (0, 0, 0) := by
  rw [Vec3.exact_value_eq_some]
  exact ⟨CFloat.exact_value_zero, CFloat.exact_value_zero, CFloat.exact_value_zero⟩

theorem unit_m3_r2_exact_value : unit_m3.r2.exact_value = some (0, 0, 1) := by
  rw [Vec3.exact_value_eq_some]
  exact ⟨CFloat.exact_value_zero, CFloat.exact_value_zero, CFloat.exact_value_one⟩

/-- Centers seeded by `region_add_set_bundle_curve`, as float expressions and read in exact
arithmetic. -/
theorem region_add_set_bundle_curve_centers (region : GroomRegion) (loc : Vec3) (rot : Mat3)
    (length : CFloat) (l r : ℚ × ℚ × ℚ) (f : ℚ) (hl : loc.exact_value = some l)
    (hr : rot.r2.exact_value = some r) (hf : length.exact_value = some f) :
    ∃ s0 s1, (region_add_set_bundle_curve region loc rot length).bundle.sections = [s0, s1] ∧
      s0.center = madd_v3_v3v3fl loc rot.r2 CFloat.zero ∧
      s1.center = madd_v3_v3v3fl loc rot.r2 length ∧
      s0.center.exact_value = some l ∧
      s1.center.exact_value
        = some (l.1 + f * r.1, l.2.1 + f * r.2.1, l.2.2 + f * r.2.2) := by
  refine ⟨_, _, region_add_set_bundle_curve_sections region loc rot length, rfl, rfl, ?_,
    madd_v3_v3v3fl_exact_value loc rot.r2 length l r f hl hr hf⟩
  have h := madd_v3_v3v3fl_exact_value loc rot.r2 CFloat.zero l r 0 hl hr
    CFloat.exact_value_zero
  simpa using h

/-- C6: region-add seeds the bundle with exactly two sections on a straight segment.
`region_add_set_bundle_curve(region, loc, rot, length)` sets `totsections == 2` and the
centers to the binary32 expressions `loc + rot[2] * 0.0f` and `loc + rot[2] * length`, which
in exact arithmetic are `loc` and `loc + length * rot[2]`.  `region_add_exec`, once the
face map is found, finishes with the new region appended to the live region list, seeded
with length `1.0f` from `scalp_loc`, `scalp_rot` and then passed to the shape reset; when
the face map cannot be set or binding fails these are the world origin and the identity,
so the seeded centers are `(0,0,0)` and `(0,0,1)`; when both succeed they are the origin
and frame computed on the scalp, so the seeded centers are `origin` and
`origin + rot[2] * 1.0` (exact arithmetic). -/
theorem region_add_seeds_two_sections (api : GroomAPI) (groom : Groom) (fmap_index : Int)
    (scalp : ScalpObject) (fmap : bFaceMap) (region : GroomRegion) (loc : Vec3) (rot : Mat3)
    (length : CFloat) (l r : ℚ × ℚ × ℚ) (f : ℚ)
    (hscalp : groom.scalp_object = some scalp)
    (hfmap : BLI_findlink scalp.fmaps fmap_index = some fmap)
    (hl : loc.exact_value = some l) (hr : rot.r2.exact_value = some r)
    (hf : length.exact_value = some f) :
    ((region_add_set_bundle_curve region loc rot length).bundle.totsections = 2 ∧
      ∃ s0 s1, (region_add_set_bundle_curve region loc rot length).bundle.sections = [s0, s1] ∧
        s0.center = madd_v3_v3v3fl loc rot.r2 CFloat.zero ∧
        s1.center = madd_v3_v3v3fl loc rot.r2 length ∧
        s0.center.exact_value = some l ∧
        s1.center.exact_value
          = some (l.1 + f * r.1, l.2.1 + f * r.2.1, l.2.2 + f * r.2.2)) ∧
    (∃ (seeded : GroomRegion) (scalp_loc : Vec3) (scalp_rot : Mat3),
      region_add_scalp_transform api (BKE_groom_region_add api groom).1
        (BKE_groom_region_add api groom).2 fmap.name = (seeded, scalp_loc, scalp_rot) ∧
      region_add_exec api groom fmap_index =
        (OperatorStatus.OPERATOR_FINISHED,
          set_live_regions groom (live_regions groom ++
            [api.region_reset_shape
              (region_add_set_bundle_curve seeded scalp_loc scalp_rot CFloat.one)])) ∧
      (region_add_set_bundle_curve seeded scalp_loc scalp_rot CFloat.one).bundle.totsections
        = 2 ∧
      (((api.set_region_scalp_facemap (BKE_groom_region_add api groom).1
            (BKE_groom_region_add api groom).2 fmap.name).1 = false ∨
          (api.region_bind (BKE_groom_region_add api groom).1
            (api.set_region_scalp_facemap (BKE_groom_region_add api groom).1
              (BKE_groom_region_add api groom).2 fmap.name).2 true).1 = false) →
        scalp_loc = zero_v3 ∧ scalp_rot = unit_m3 ∧
        ∃ s0 s1,
          (region_add_set_bundle_curve seeded scalp_loc scalp_rot CFloat.one).bundle.sections
            = [s0, s1] ∧
          s0.center.exact_value = some (0, 0, 0) ∧
          s1.center.exact_value = some (0, 0, 1)) ∧
      (((api.set_region_scalp_facemap (BKE_groom_region_add api groom).1
            (BKE_groom_region_add api groom).2 fmap.name).1 = true ∧
          (api.region_bind (BKE_groom_region_add api groom).1
            (api.set_region_scalp_facemap (BKE_groom_region_add api groom).1
              (BKE_groom_region_add api groom).2 fmap.name).2 true).1 = true) →
        (scalp_loc, scalp_rot) = api.calc_region_transform_on_scalp
          (api.region_bind (BKE_groom_region_add api groom).1
            (api.set_region_scalp_facemap (BKE_groom_region_add api groom).1
              (BKE_groom_region_add api groom).2 fmap.name).2 true).2
          (zero_v3, unit_m3) ∧
        ∀ origin tangent : ℚ × ℚ × ℚ, scalp_loc.exact_value = some origin →
          scalp_rot.r2.exact_value = some tangent →
          ∃ s0 s1,
            (region_add_set_bundle_curve seeded scalp_loc scalp_rot
              CFloat.one).bundle.sections = [s0, s1] ∧
            s0.center.exact_value = some origin ∧
            s1.center.exact_value
              = some (origin.1 + tangent.1 * 1, origin.2.1 + tangent.2.1 * 1,
                  origin.2.2 + tangent.2.2 * 1))) := by
  constructor
  · exact ⟨rfl, region_add_set_bundle_curve_centers region loc rot length l r f hl hr hf⟩
  · have hexec := region_add_exec_found api groom fmap_index scalp fmap hscalp hfmap
    generalize hst : region_add_scalp_transform api (BKE_groom_region_add api groom).1
      (BKE_groom_region_add api groom).2 fmap.name = st at hexec ⊢
    obtain ⟨seeded, scalp_loc, scalp_rot⟩ := st
    refine ⟨seeded, scalp_loc, scalp_rot, rfl, hexec, rfl, ?_, ?_⟩
    · intro hfail
      have hlr : scalp_loc = zero_v3 ∧ scalp_rot = unit_m3 := by
        unfold region_add_scalp_transform at hst
        rcases hfail with h | h
        · simp [h] at hst
          exact ⟨hst.2.1.symm, hst.2.2.symm⟩
        · by_cases h1 : (api.set_region_scalp_facemap (BKE_groom_region_add api groom).1
              (BKE_groom_region_add api groom).2 fmap.name).1 = true
          · simp [h1, h] at hst
            exact ⟨hst.2.1.symm, hst.2.2.symm⟩
          · simp [h1] at hst
            exact ⟨hst.2.1.symm, hst.2.2.symm⟩
      obtain ⟨h1, h2⟩ := hlr
      subst h1 h2
      obtain ⟨s0, s1, hs, _, _, h0, h1⟩ :=
        region_add_set_bundle_curve_centers seeded zero_v3 unit_m3 CFloat.one (0, 0, 0)
          (0, 0, 1) 1 zero_v3_exact_value unit_m3_r2_exact_value CFloat.exact_value_one
      refine ⟨rfl, rfl, s0, s1, hs, h0, ?_⟩
      simpa using h1
    · intro hok
      unfold region_add_scalp_transform at hst
      simp [hok.1, hok.2] at hst
      refine ⟨hst.2.symm, ?_⟩
      intro origin tangent ho ht
      obtain ⟨s0, s1, hs, _, _, h0, h1⟩ :=
        region_add_set_bundle_curve_centers seeded scalp_loc scalp_rot CFloat.one origin
          tangent 1 ho ht CFloat.exact_value_one
      refine ⟨s0, s1, hs, h0, ?_⟩
      rw [h1]
      simp [mul_comm]

/-- C6, instance of `region_add_seeds_two_sections` on the concrete inputs: the world
origin, the identity frame and length `1.0f`. -/
theorem region_add_seeds_two_sections_witness :
    example_groom.scalp_object = some ⟨[⟨"cap"⟩]⟩ ∧
    BLI_findlink [(⟨"cap"⟩ : bFaceMap)] 0 = some ⟨"cap"⟩ ∧
    zero_v3.exact_value = some (0, 0, 0) ∧ unit_m3.r2.exact_value = some (0, 0, 1) ∧
    CFloat.one.exact_value = some 1 ∧
    (region_add_set_bundle_curve example_region zero_v3 unit_m3
      CFloat.one).bundle.totsections = 2 :=
  ⟨rfl, by decide, zero_v3_exact_value, unit_m3_r2_exact_value, CFloat.exact_value_one,
    (region_add_seeds_two_sections example_api example_groom 0 ⟨[⟨"cap"⟩]⟩ ⟨"cap"⟩
      example_region zero_v3 unit_m3 CFloat.one (0, 0, 0) (0, 0, 1) 1 rfl (by decide)
      zero_v3_exact_value unit_m3_r2_exact_value CFloat.exact_value_one).1.1⟩

/-- C7 (as stated) fails: with a face-map index that names no face map of the scalp object
`region_add_exec` is cancelled and appends no region at all, neither to the committed nor
to the live region list, so it is not the case that a region with `totsections == 0` and
no samples has been created. -/
theorem region_add_exec_unknown_facemap_counterexample :
    BLI_findlink [(⟨"cap"⟩ : bFaceMap)] 1 = none ∧
    ¬ ((region_add_exec example_api example_groom 1).1 = OperatorStatus.OPERATOR_CANCELLED ∧
      ∃ r : GroomRegion,
        ((region_add_exec example_api example_groom 1).2.regions
            = example_groom.regions ++ [r] ∨
          live_regions (region_add_exec example_api example_groom 1).2
            = live_regions example_groom ++ [r]) ∧
        r.bundle.totsections = 0 ∧ r.scalp_samples = []) := by
  refine ⟨by decide, ?_⟩
  rintro ⟨_, r, h, _⟩
  have h2 : (region_add_exec example_api example_groom 1).2 = example_groom := by decide
  rw [h2] at h
  rcases h with h | h
  · simpa using congrArg List.length h
  · simpa using congrArg List.length h

/-- C7 (amended): when the scalp object is missing or the face-map index names no face map
of it, `region_add_exec` reports failure (`OPERATOR_CANCELLED`) and creates no region: the
groom is unchanged. -/
theorem region_add_exec_facemap_outcomes (api : GroomAPI) (groom : Groom) (fmap_index : Int)
    (h : groom.scalp_object = none ∨
      ∃ scalp, groom.scalp_object = some scalp ∧
        BLI_findlink scalp.fmaps fmap_index = none) :
    region_add_exec api groom fmap_index = (OperatorStatus.OPERATOR_CANCELLED, groom) := by
  rcases h with h | ⟨scalp, h1, h2⟩
  · simp [region_add_exec, h]
  · simp [region_add_exec, h1, h2]

/-- C7, instance of `region_add_exec_facemap_outcomes` on the concrete inputs. -/
theorem region_add_exec_facemap_outcomes_witness :
    BLI_findlink [(⟨"cap"⟩ : bFaceMap)] 1 = none ∧
    region_add_exec example_api example_groom 1
      = (OperatorStatus.OPERATOR_CANCELLED, example_groom) :=
  ⟨by decide,
    region_add_exec_facemap_outcomes example_api example_groom 1
      (Or.inr ⟨⟨[⟨"cap"⟩]⟩, rfl, by decide⟩)⟩

/-- C8 (as stated) fails: on a region without sections `groom_bundle_extrude` does append a
section and changes `totsections` (from 0 to 1). -/
theorem groom_bundle_extrude_empty_counterexample :
    example_region_empty.bundle.totsections = 0 ∧
    (groom_bundle_extrude example_api example_region_empty).bundle.totsections = 1 ∧
    (groom_bundle_extrude example_api example_region_empty).bundle.sections.length = 1 ∧
    ¬ ((groom_bundle_extrude example_api example_region_empty).bundle.sections
          = example_region_empty.bundle.sections ∧
        (groom_bundle_extrude example_api example_region_empty).bundle.totsections
          = example_region_empty.bundle.totsections ∧
        (groom_bundle_extrude example_api example_region_empty).bundle.totverts
          = example_region_empty.bundle.totverts) := by
  have h1 : (groom_bundle_extrude example_api example_region_empty).bundle.totsections = 1 := by
    decide
  refine ⟨rfl, h1, by decide, ?_⟩
  rintro ⟨_, h, _⟩
  rw [h1] at h
  exact absurd h (by decide)

/-- C8 (amended): on a region whose bundle has no section `groom_bundle_extrude` does not
fail (it returns `void`): it allocates one section cell, fills its center and frame with
`BKE_groom_calc_region_transform_on_scalp`, calls `BKE_groom_region_reset_shape` and runs
the selection block; when the shape reset keeps the sections array and its count, the
result has `totsections == 1` and its single section is selected. -/
theorem groom_bundle_extrude_empty_bundle (api : GroomAPI) (region : GroomRegion)
    (hreset : ∀ r, (api.region_reset_shape r).bundle.totsections = r.bundle.totsections ∧
      (api.region_reset_shape r).bundle.sections.length = r.bundle.sections.length)
    (h0 : region.bundle.totsections = 0) (hnil : region.bundle.sections = []) :
    groom_bundle_extrude api region =
      select_last_section api.junk_section
        (api.region_reset_shape (first_section_seeded api region)) ∧
    (first_section_seeded api region).bundle.totsections = 1 ∧
    (∃ s, (first_section_seeded api region).bundle.sections = [s] ∧
      (s.center, s.mat) = api.calc_region_transform_on_scalp
        { region with bundle := { region.bundle with
            totsections := 1, sections := [api.uninit_section 0] } }
        ((api.uninit_section 0).center, (api.uninit_section 0).mat)) ∧
    (groom_bundle_extrude api region).bundle.totsections = 1 ∧
    ∃ x, (groom_bundle_extrude api region).bundle.sections = [x] ∧
      flag_test x.flag GM_SECTION_SELECT = true := by
  have hf := groom_bundle_extrude_first api region h0 hnil
  obtain ⟨hq1, hq2⟩ := hreset (first_section_seeded api region)
  have hq1' : (api.region_reset_shape (first_section_seeded api region)).bundle.totsections
      = 1 := by rw [hq1]; rfl
  obtain ⟨x, hx⟩ := List.length_eq_one.mp (hq2.trans rfl)
  refine ⟨hf, rfl, ⟨_, rfl, rfl⟩, ?_, ?_⟩
  · rw [hf, select_last_section_single _ _ x hq1' hx]
    exact hq1'
  · rw [hf, select_last_section_single _ _ x hq1' hx]
    exact ⟨set_select x, rfl, flag_test_set_select x⟩

/-- C8, instance of `groom_bundle_extrude_empty_bundle` on the concrete inputs. -/
theorem groom_bundle_extrude_empty_bundle_witness :
    example_region_empty.bundle.totsections = 0 ∧
    example_region_empty.bundle.sections = [] ∧
    (groom_bundle_extrude example_api example_region_empty).bundle.totsections = 1 :=
  ⟨rfl, rfl,
    (groom_bundle_extrude_empty_bundle example_api example_region_empty
      (fun _ => ⟨rfl, rfl⟩) rfl rfl).2.2.2.1⟩

/-- C9: `groom_extrude_bundle_exec` acts per region and skips non-selected regions: the
edit-staging list keeps its length and order, a region without `GM_REGION_SELECT` is
unchanged in every field, and a region with the flag is exactly the result of one
`groom_bundle_extrude` applied to that region alone; nothing else of the groom changes and
the operator finishes. -/
theorem groom_extrude_bundle_exec_per_region (api : GroomAPI) (groom : Groom)
    (edit : EditGroom) (hedit : groom.editgroom = some edit) :
    ∃ out : List GroomRegion,
      groom_extrude_bundle_exec api groom =
        some (OperatorStatus.OPERATOR_FINISHED,
          { groom with editgroom := some { regions := out } }) ∧
      out.length = edit.regions.length ∧
      ∀ (i : Nat) (r : GroomRegion), edit.regions[i]? = some r →
        (flag_test r.flag GM_REGION_SELECT = false → out[i]? = some r) ∧
        (flag_test r.flag GM_REGION_SELECT = true →
          out[i]? = some (groom_bundle_extrude api r)) := by
  refine ⟨groom_extrude_bundle_regions api edit.regions, ?_,
    length_groom_extrude_bundle_regions api edit.regions, ?_⟩
  · simp [groom_extrude_bundle_exec, hedit]
  · intro i r hr
    rw [getElem?_groom_extrude_bundle_regions, hr]
    constructor
    · intro h; simp [h]
    · intro h; simp [h]

/-- C9, instance of `groom_extrude_bundle_exec_per_region` on the concrete inputs. -/
theorem groom_extrude_bundle_exec_per_region_witness :
    example_groom.editgroom
      = some ⟨[example_region, { example_region_empty with flag := 2 }]⟩ ∧
    ∃ out : List GroomRegion,
      groom_extrude_bundle_exec example_api example_groom =
        some (OperatorStatus.OPERATOR_FINISHED,
          { example_groom with editgroom := some { regions := out } }) ∧
      out.length = 2 :=
  ⟨rfl,
    (groom_extrude_bundle_exec_per_region example_api example_groom
      ⟨[example_region, { example_region_empty with flag := 2 }]⟩ rfl).imp
      (fun _ h => ⟨h.1, h.2.1⟩)⟩

/-- C10 (as stated) fails: at `N = 1`, `numverts = totverts = INT_MAX` all three
preconditions hold, but `bundle->totverts += numverts` leaves the `int` range: a two's
complement machine stores `-2` as the new element count, not `(N + 1) * numverts`, the
destination block would start at index `INT_MAX`, and the call is undefined behaviour. -/
theorem groom_bundle_extrude_index_safety_counterexample :
    1 ≤ example_region_big.bundle.totsections ∧ 0 ≤ example_region_big.numverts ∧
    size_invariant example_region_big ∧
    resized_totverts example_region_big = -2 ∧
    new_verts_index example_region_big = 2147483647 ∧
    ¬ (resized_totverts example_region_big
        = (example_region_big.bundle.totsections + 1) * example_region_big.numverts) ∧
    groom_bundle_extrude_checked example_api example_region_big = none := by
  refine ⟨by decide, by decide, by decide, by decide, by decide, by decide, by decide⟩

/-- C10 (amended): index safety of the copy branch of `groom_bundle_extrude` when the new
counts fit the C `int`.  With `N >= 1` sections, `numverts >= 0`,
`totverts == N * numverts`, `totsections + 1 <= INT_MAX` and
`totverts + numverts <= INT_MAX` before the call no operation overflows and every array
access is in bounds (the checked model returns the result of the plain model): the
previous-section index `totsections - 2` lies in `[0, N)`, the source block starts at
`totverts - 2*numverts == (N - 1) * numverts >= 0`, the source block ends where the
destination block starts (no overlap) and the destination block ends at the length
`(N + 1) * numverts` of the resized vertex array.  With `0 <= totverts < numverts`
instead, the source start index is negative and the call is undefined behaviour. -/
theorem groom_bundle_extrude_index_safety (api : GroomAPI) (region : GroomRegion) :
    (1 ≤ region.bundle.totsections → 0 ≤ region.numverts → size_invariant region →
      region.bundle.totsections + 1 ≤ INT_MAX →
      region.bundle.totverts + region.numverts ≤ INT_MAX →
      groom_bundle_extrude_checked api region = some (groom_bundle_extrude api region) ∧
      0 ≤ prev_section_index region ∧
      prev_section_index region < region.bundle.totsections ∧
      new_section_index region = region.bundle.totsections ∧
      ((MEM_reallocN_id api.uninit_section region.bundle.sections
        (region.bundle.totsections + 1)).length : Int) = region.bundle.totsections + 1 ∧
      prev_verts_index region = (region.bundle.totsections - 1) * region.numverts ∧
      0 ≤ prev_verts_index region ∧
      prev_verts_index region + region.numverts = new_verts_index region ∧
      new_verts_index region + region.numverts = resized_totverts region ∧
      resized_totverts region = (region.bundle.totsections + 1) * region.numverts ∧
      ((MEM_reallocN_id api.uninit_vert region.bundle.verts
        (resized_totverts region)).length : Int)
        = (region.bundle.totsections + 1) * region.numverts) ∧
    (1 ≤ region.bundle.totsections → 0 ≤ region.bundle.totverts →
      region.bundle.totverts < region.numverts → region.numverts ≤ INT_MAX →
      prev_verts_index region < 0 ∧ groom_bundle_extrude_checked api region = none) := by
  constructor
  · intro hN hV hI hR1 hR2
    have hI' := hI
    unfold size_invariant at hI'
    have hR1' : region.bundle.totsections + 1 ≤ 2147483647 := hR1
    have hR2' : region.bundle.totverts + region.numverts ≤ 2147483647 := hR2
    have h1 : (region.bundle.totsections - 1) * region.numverts
        = region.bundle.totverts - region.numverts := by rw [hI']; ring
    have h2 : (region.bundle.totsections + 1) * region.numverts
        = region.bundle.totverts + region.numverts := by rw [hI']; ring
    have hT : 0 ≤ region.bundle.totverts := by rw [hI']; positivity
    have hle : region.numverts ≤ region.bundle.totverts := by rw [hI']; nlinarith
    have w1 : int_wrap (region.bundle.totsections + 1) = region.bundle.totsections + 1 :=
      int_wrap_of_range _ (by unfold INT_MIN; omega) hR1
    have w2 : resized_totverts region = region.bundle.totverts + region.numverts :=
      int_wrap_of_range _ (by unfold INT_MIN; omega) hR2
    have w3 : new_section_index region = region.bundle.totsections := by
      unfold new_section_index
      rw [w1, int_wrap_of_range _ (by unfold INT_MIN; omega) (by unfold INT_MAX; omega)]
      omega
    have w4 : prev_section_index region = region.bundle.totsections - 1 := by
      unfold prev_section_index
      rw [w1, int_wrap_of_range _ (by unfold INT_MIN; omega) (by unfold INT_MAX; omega)]
      omega
    have w5 : new_verts_index region = region.bundle.totverts := by
      unfold new_verts_index
      rw [w2, int_wrap_of_range _ (by unfold INT_MIN; omega) (by unfold INT_MAX; omega)]
      omega
    have w6 : prev_verts_index region = region.bundle.totverts - region.numverts := by
      unfold prev_verts_index
      rw [w2, int_wrap_of_range (2 * region.numverts) (by unfold INT_MIN; omega)
        (by unfold INT_MAX; omega),
        int_wrap_of_range _ (by unfold INT_MIN; omega) (by unfold INT_MAX; omega)]
      omega
    refine ⟨groom_bundle_extrude_checked_copy api region hN hV hI hR1 hR2, ?_, ?_, w3, ?_, ?_,
      ?_, ?_, ?_, ?_, ?_⟩
    · rw [w4]; omega
    · rw [w4]; omega
    · rw [length_MEM_reallocN_id]; omega
    · rw [h1, w6]
    · rw [w6]; omega
    · rw [w6, w5]; omega
    · rw [w5, w2]
    · rw [h2, w2]
    · rw [length_MEM_reallocN_id, h2, w2]; omega
  · intro hN hT hlt hR
    have hR' : region.numverts ≤ 2147483647 := hR
    refine ⟨?_, groom_bundle_extrude_checked_short api region hN hlt⟩
    unfold prev_verts_index resized_totverts
    rw [int_wrap_sub_wrap_right, int_wrap_sub_wrap,
      int_wrap_of_range _ (by unfold INT_MIN; omega) (by unfold INT_MAX; omega)]
    omega

/-- C10, instance of `groom_bundle_extrude_index_safety` on the concrete inputs. -/
theorem groom_bundle_extrude_index_safety_witness :
    groom_bundle_extrude_checked example_api example_region
      = some (groom_bundle_extrude example_api example_region) ∧
    prev_verts_index example_region_short < 0 ∧
    groom_bundle_extrude_checked example_api example_region_short = none :=
  ⟨((groom_bundle_extrude_index_safety example_api example_region).1 (by decide) (by decide)
      (by decide) (by decide) (by decide)).1,
    (groom_bundle_extrude_index_safety example_api example_region_short).2 (by decide)
      (by decide) (by decide) (by decide)⟩

end EditGroomRegion
